import Mathlib

/-!
Verification of the benchmark harness (measurement engine, statistics kernel,
comparator, report validators) against its specification.

Modeling conventions:
* JavaScript numbers (IEEE-754 binary64) are modeled by `JSNum`: a finite value is an
  exact real number, and the special values `Infinity`, `-Infinity` and `NaN` are
  explicit constructors.  Finite arithmetic is idealized as exact real arithmetic
  (no rounding, no signed zero); the properties under verification concern control
  flow, special-value propagation and exact algebraic identities, not rounding error.
* Wall-clock readings (`performance.now()`) are external nondeterminism; a run is
  parameterized by an environment that supplies the elapsed time of every calibration
  batch, of every main-loop batch, and the cumulative clock used for the budget check.
* The timed user function itself is outside the model; environments model runs in
  which it does not throw (the claims under study all concern non-throwing runs).
* Loops whose exit depends on measured time are modeled with an explicit fuel
  parameter; exhausted fuel (`none`) corresponds to a diverging loop.
-/

namespace Benchmark

/-- A JavaScript (IEEE-754 binary64) number: a finite real, one of the two infinities,
or NaN.  Finite values are exact reals (see the header comment). -/
inductive JSNum where
  | fin (x : ℝ)
  | inf
  | ninf
  | nan

namespace JSNum

/-- JavaScript `isNaN`. -/
def isNaN : JSNum → Bool
  | nan => true
  | _ => false

/-- Whether the number is finite (neither NaN nor an infinity). -/
def isFinite : JSNum → Bool
  | fin _ => true
  | _ => false

end JSNum

/-- JavaScript unary minus. -/
def jsNeg : JSNum → JSNum
  | .fin x => .fin (-x)
  | .inf => .ninf
  | .ninf => .inf
  | .nan => .nan

/-- JavaScript `+` on numbers (IEEE-754 addition): NaN propagates and `∞ + (-∞)` is NaN. -/
def jsAdd : JSNum → JSNum → JSNum
  | .nan, _ => .nan
  | _, .nan => .nan
  | .fin a, .fin b => .fin (a + b)
  | .fin _, .inf => .inf
  | .fin _, .ninf => .ninf
  | .inf, .fin _ => .inf
  | .ninf, .fin _ => .ninf
  | .inf, .inf => .inf
  | .ninf, .ninf => .ninf
  | .inf, .ninf => .nan
  | .ninf, .inf => .nan

/-- JavaScript `-` on numbers; IEEE subtraction is addition of the negation. -/
def jsSub (a b : JSNum) : JSNum := jsAdd a (jsNeg b)

/-- JavaScript `*` on numbers: NaN propagates, `0 * ∞` is NaN, otherwise signs combine. -/
noncomputable def jsMul : JSNum → JSNum → JSNum
  | .nan, _ => .nan
  | _, .nan => .nan
  | .fin a, .fin b => .fin (a * b)
  | .fin a, .inf => if a = 0 then .nan else if 0 < a then .inf else .ninf
  | .fin a, .ninf => if a = 0 then .nan else if 0 < a then .ninf else .inf
  | .inf, .fin b => if b = 0 then .nan else if 0 < b then .inf else .ninf
  | .ninf, .fin b => if b = 0 then .nan else if 0 < b then .ninf else .inf
  | .inf, .inf => .inf
  | .ninf, .ninf => .inf
  | .inf, .ninf => .ninf
  | .ninf, .inf => .ninf

/-- JavaScript `/` on numbers: NaN propagates, `0/0` and `∞/∞` are NaN, a nonzero
finite numerator over zero is a signed infinity, a finite numerator over an infinity
is zero.  (The model has no signed zero: division by zero behaves like division by
the positive zero `+0`.) -/
noncomputable def jsDiv : JSNum → JSNum → JSNum
  | .nan, _ => .nan
  | _, .nan => .nan
  | .fin a, .fin b =>
      if b = 0 then (if a = 0 then .nan else if 0 < a then .inf else .ninf)
      else .fin (a / b)
  | .fin _, .inf => .fin 0
  | .fin _, .ninf => .fin 0
  | .inf, .fin b => if 0 ≤ b then .inf else .ninf
  | .ninf, .fin b => if 0 ≤ b then .ninf else .inf
  | .inf, .inf => .nan
  | .inf, .ninf => .nan
  | .ninf, .inf => .nan
  | .ninf, .ninf => .nan

/-- JavaScript `Math.sqrt`: NaN on negative input. -/
noncomputable def jsSqrt : JSNum → JSNum
  | .fin x => if x < 0 then .nan else .fin (Real.sqrt x)
  | .inf => .inf
  | .ninf => .nan
  | .nan => .nan

/-- JavaScript `Math.abs`. -/
def jsAbs : JSNum → JSNum
  | .fin x => .fin |x|
  | .inf => .inf
  | .ninf => .inf
  | .nan => .nan

/-- JavaScript `<` on numbers: any comparison involving NaN is false. -/
noncomputable def jsLt : JSNum → JSNum → Bool
  | .nan, _ => false
  | _, .nan => false
  | .fin a, .fin b => decide (a < b)
  | .fin _, .inf => true
  | .fin _, .ninf => false
  | .inf, .fin _ => false
  | .ninf, .fin _ => true
  | .inf, .inf => false
  | .ninf, .ninf => false
  | .ninf, .inf => true
  | .inf, .ninf => false

/-- JavaScript `<=` on numbers: any comparison involving NaN is false. -/
noncomputable def jsLe : JSNum → JSNum → Bool
  | .nan, _ => false
  | _, .nan => false
  | .fin a, .fin b => decide (a ≤ b)
  | .fin _, .inf => true
  | .fin _, .ninf => false
  | .inf, .fin _ => false
  | .ninf, .fin _ => true
  | .inf, .inf => true
  | .ninf, .ninf => true
  | .ninf, .inf => true
  | .inf, .ninf => false

/-! ### Statistics kernel (`src/statistics.ts`)

Functions that the source guards against empty input are given in two layers: a total
value function (`...Val`, the arithmetic performed in the non-throwing branch) and the
source-shaped function returning `Except` for the `throw` path. -/

/-- Value computed by `arithmeticMean` on non-empty data:
`data.reduce((sum, value) => sum + value, 0) / data.length`. -/
noncomputable def arithmeticMeanVal (data : List ℝ) : ℝ :=
  data.foldl (· + ·) 0 / data.length

/-- `arithmeticMean`: throws on empty input. -/
noncomputable def arithmeticMean (data : List ℝ) : Except String ℝ :=
  if data.length = 0 then .error "Data array cannot be empty."
  else .ok (arithmeticMeanVal data)

/-- The ascending numeric sort `[...data].sort((a, b) => a - b)`.  Any correct sort of
real numbers produces the same value sequence (the sorted permutation is unique as a
sequence of values); we model it with insertion sort. -/
noncomputable def sortedAsc (data : List ℝ) : List ℝ :=
  List.insertionSort (· ≤ ·) data

/-- Value computed by `median` on non-empty data (average of the two middle elements
of the sorted copy for even length, middle element for odd length). -/
noncomputable def medianVal (data : List ℝ) : ℝ :=
  let sorted := sortedAsc data
  let mid := sorted.length / 2
  if sorted.length % 2 = 0 then (sorted.getD (mid - 1) 0 + sorted.getD mid 0) / 2
  else sorted.getD mid 0

/-- `median`: throws on empty input. -/
noncomputable def median (data : List ℝ) : Except String ℝ :=
  if data.length = 0 then .error "Data array cannot be empty."
  else .ok (medianVal data)

/-- `calculateTStatistic`: Welch's t statistic
`(mean1 - mean2) / Math.sqrt(s1 ** 2 / n1 + s2 ** 2 / n2)` (the source's `x ** 2` on
floats coincides with `x * x`). -/
noncomputable def calculateTStatistic (mean1 mean2 s1 s2 n1 n2 : JSNum) : JSNum :=
  jsDiv (jsSub mean1 mean2)
    (jsSqrt (jsAdd (jsDiv (jsMul s1 s1) n1) (jsDiv (jsMul s2 s2) n2)))

/-- `calculateDegreesOfFreedom`: the Welch–Satterthwaite expression, computed exactly
as written in the source (including the intermediate `s1SqOverN1`). -/
noncomputable def calculateDegreesOfFreedom (s1 s2 n1 n2 : JSNum) : JSNum :=
  let s1Squared := jsMul s1 s1
  let s2Squared := jsMul s2 s2
  let s1SqOverN1 := jsDiv s1Squared n1
  let s2SqOverN2 := jsDiv s2Squared n2
  jsDiv (jsMul (jsAdd s1SqOverN1 s2SqOverN2) (jsAdd s1SqOverN1 s2SqOverN2))
    (jsAdd (jsDiv (jsMul s1SqOverN1 s1SqOverN1) (jsSub n1 (.fin 1)))
      (jsDiv (jsMul s2SqOverN2 s2SqOverN2) (jsSub n2 (.fin 1))))

/-- One iteration step of the continued-fraction loop of `betacf` (loop variable `m`
from 1 to 100, with early exit when `|del - 1| < 3e-7`); state is `(c, d, h)`. -/
noncomputable def betacfLoop (x a b : ℝ) : ℕ → ℕ → ℝ → ℝ → ℝ → ℝ
  | 0, _, _, _, h => h
  | fuel + 1, m, c, d, h =>
    let qab := a + b
    let qap := a + 1
    let qam := a - 1
    let m2 : ℝ := 2 * m
    let aa1 := (m * (b - m) * x) / ((qam + m2) * (a + m2))
    let d1 := 1 + aa1 * d
    let d1 := if |d1| < 1e-30 then 1e-30 else d1
    let c1 := 1 + aa1 / c
    let c1 := if |c1| < 1e-30 then 1e-30 else c1
    let d1 := 1 / d1
    let h1 := h * d1 * c1
    let aa2 := (-(a + m) * (qab + m) * x) / ((a + m2) * (qap + m2))
    let d2 := 1 + aa2 * d1
    let d2 := if |d2| < 1e-30 then 1e-30 else d2
    let c2 := 1 + aa2 / c1
    let c2 := if |c2| < 1e-30 then 1e-30 else c2
    let d2 := 1 / d2
    let del := d2 * c2
    let h2 := h1 * del
    if |del - 1| < 3e-7 then h2
    else betacfLoop x a b fuel (m + 1) c2 d2 h2

/-- `betacf`: continued-fraction approximation of the regularized incomplete beta
function (Numerical Recipes style, at most 100 iterations). -/
noncomputable def betacf (x a b : ℝ) : ℝ :=
  let qab := a + b
  let qap := a + 1
  let c : ℝ := 1
  let d0 := 1 - qab * x / qap
  let d0 := if |d0| < 1e-30 then 1e-30 else d0
  let d := 1 / d0
  betacfLoop x a b 100 1 c d d

/-- `logGamma`: Lanczos approximation (the source returns a pair whose second
component is always 0; only the value is modeled). -/
noncomputable def logGamma (z : ℝ) : ℝ :=
  let cof : List ℝ :=
    [76.18009172947146, -86.5053203294167, 24.01409824083091, -1.231739572450155,
      0.1208650973866179e-2, -0.5395239384953e-5]
  let tmp := z + 5.5 - (z + 0.5) * Real.log (z + 5.5)
  let ser := (cof.foldl (fun p item => (p.1 + 1, p.2 + item / (p.1 + 1)))
    ((z : ℝ), (1.000000000190015 : ℝ))).2
  Real.log (2.506628274631 * ser / z) - tmp

/-- `logBeta`. -/
noncomputable def logBeta (a b : ℝ) : ℝ := logGamma a + logGamma b - logGamma (a + b)

/-- `betaIncomplete`: regularized incomplete beta function. -/
noncomputable def betaIncomplete (x a b : ℝ) : ℝ :=
  let bt := if x = 0 ∨ x = 1 then 0
    else Real.exp (a * Real.log x + b * Real.log (1 - x) - logBeta a b)
  if x < (a + 1) / (a + b + 2) then bt * betacf x a b / a
  else 1 - bt * betacf (1 - x) b a / b

/-- `tCDF`: cumulative distribution function of Student's t distribution as computed
by the source for finite arguments. -/
noncomputable def tCDF (t df : ℝ) : ℝ :=
  let x := df / (df + t * t)
  let a := df / 2
  let b : ℝ := 0.5
  let ib := betaIncomplete x a b
  if 0 ≤ t then 1 - 0.5 * ib else 0.5 * ib

/-- The value `2 * (1 - tCDF(tAbs, df))` computed by `calculatePValue` after its
guards, where `tAbs = Math.abs(tStat)`.  For finite arguments the float computation
is the real-valued formula; at the non-finite arguments that pass the guards, the
float evaluation is recorded case by case:
* `tAbs = ∞`, `df` finite: `x = df/(df + ∞) = 0`, so `betaIncomplete` returns 0
  exactly (its `bt` factor is 0), `tCDF = 1` and `p = 2·(1 - 1) = 0`;
* `df = ∞`: `x = ∞/(∞ + t²) = ∞/∞ = NaN`, which propagates to `p = NaN`.
(`df = -∞` is rejected by the `df <= 0` guard, NaN arguments by the first guard, and
`tAbs` is never `-∞`; the final catch-all row is unreachable.) -/
noncomputable def pValueFloat : JSNum → JSNum → JSNum
  | .fin t, .fin d => .fin (2 * (1 - tCDF t d))
  | .inf, .fin _ => .fin 0
  | _, .inf => .nan
  | _, _ => .nan

/-- `calculatePValue`: rejects NaN arguments and `df <= 0`, then returns the
two-tailed p-value `2 * (1 - tCDF(Math.abs(tStat), df))`. -/
noncomputable def calculatePValue (tStat df : JSNum) : Except String JSNum :=
  if tStat.isNaN || df.isNaN then .error "t and df must be numbers."
  else if jsLe df (.fin 0) then .error "Degrees of freedom must be greater than 0."
  else .ok (pValueFloat (jsAbs tStat) df)

/-- Value computed by `sampleVariance` on non-empty data:
`data.reduce((sum, value) => sum + (value - mean) ** 2, 0) / (data.length - 1)`.
For a single sample this is the float division `0 / 0 = NaN`. -/
noncomputable def sampleVarianceVal (data : List ℝ) : JSNum :=
  jsDiv (.fin (data.foldl (fun sum value => sum + (value - arithmeticMeanVal data) ^ 2) 0))
    (.fin ((data.length : ℝ) - 1))

/-- `sampleVariance`: throws on empty input (via `arithmeticMean`). -/
noncomputable def sampleVariance (data : List ℝ) : Except String JSNum :=
  if data.length = 0 then .error "Data array cannot be empty."
  else .ok (sampleVarianceVal data)

/-- Value computed by `sampleStandardDeviation` on non-empty data. -/
noncomputable def sampleStandardDeviationVal (data : List ℝ) : JSNum :=
  jsSqrt (sampleVarianceVal data)

/-- `getPercentile`: linear interpolation between the two bracketing order statistics
at fractional rank `percentile / 100 * (length - 1)`.  The list accesses are modeled
with `getD`; for the in-range indices produced by a percentile in `[0, 100]` on a
non-empty list this is exactly the source's `sortedData[lower]` / `sortedData[upper]`
(out-of-range access, possible only on empty input, is outside the model: JavaScript
would produce `undefined` and a NaN result there). -/
noncomputable def getPercentile (sortedData : List ℝ) (percentile : ℝ) : ℝ :=
  let index := percentile / 100 * ((sortedData.length : ℝ) - 1)
  let lower := ⌊index⌋
  let upper := ⌈index⌉
  let weight := index - lower
  sortedData.getD lower.toNat 0 * (1 - weight) + sortedData.getD upper.toNat 0 * weight

/-- `marginOfError`: `(stdDev / Math.sqrt(n)) * 1.96`. -/
noncomputable def marginOfError (stdDev n : JSNum) : JSNum :=
  jsMul (jsDiv stdDev (jsSqrt n)) (.fin 1.96)

/-- `relativeMarginOfError`: `marginOfError(stdDev, n) / mean`. -/
noncomputable def relativeMarginOfError (mean stdDev n : JSNum) : JSNum :=
  jsDiv (marginOfError stdDev n) mean

/-- `calculateCohensD`: standardized mean difference over the pooled standard
deviation. -/
noncomputable def calculateCohensD (mean1 mean2 s1 s2 n1 n2 : JSNum) : JSNum :=
  let pooledStandardDeviation :=
    jsSqrt (jsDiv (jsAdd (jsMul (jsSub n1 (.fin 1)) (jsMul s1 s1))
      (jsMul (jsSub n2 (.fin 1)) (jsMul s2 s2))) (jsSub (jsAdd n1 n2) (.fin 2)))
  jsDiv (jsSub mean1 mean2) pooledStandardDeviation

/-! ### Single-benchmark measurer (`src/benchmark.ts`) -/

/-- `BenchmarkOptions` with the source's defaults resolved as in the `Benchmarker`
constructor. -/
structure BenchmarkOptions where
  maxExecutionTime : ℝ := 10000
  warmupIterations : ℕ := 10
  innerIterations : ℕ := 10
  maxInnerIterations : ℕ := 10000
  timeThreshold : ℝ := 1
  minSamples : ℕ := 10
  maxIterations : ℕ := 100

/-- The timing environment of one `run()` invocation: elapsed wall time of a
calibration batch of a given size, elapsed wall time of the `i`-th main-loop batch,
and the cumulative clock `performance.now() - overallStartTime` read right after the
`i`-th main-loop batch (used for the `maxExecutionTime` check). -/
structure BenchEnv where
  calibrationTime : ℕ → ℝ
  iterationTime : ℕ → ℝ
  clockAfter : ℕ → ℝ

/-- The mutable state of a `Benchmarker` instance relevant to measurement: the
`results` sample buffer, the `#mean` private cache field, and the (adaptively
updated) `innerIterations` field. -/
structure BenchState where
  results : List ℝ
  meanCache : Option ℝ
  innerIterations : ℕ

/-- State of a freshly constructed `Benchmarker`. -/
def initState (o : BenchmarkOptions) : BenchState :=
  { results := [], meanCache := none, innerIterations := o.innerIterations }

/-- The adaptive inner-iterations do/while loop: measure a batch of `a` invocations;
if the elapsed time is below `timeThreshold` and `a` is below `maxInnerIterations`,
double `a` and repeat, else stop with the current `a`.  (The source checks the same
compound condition once in the loop body and once as the `while` condition with the
already-doubled count but the old elapsed time; both exits yield the value modeled
here.  The loop diverges for `a = 0`; exhausted fuel returns `none`.) -/
noncomputable def adaptiveInnerIterations (calibrationTime : ℕ → ℝ) (timeThreshold : ℝ)
    (maxInnerIterations : ℕ) : ℕ → ℕ → Option ℕ
  | 0, _ => none
  | fuel + 1, a =>
    let totalTime := calibrationTime a
    if totalTime < timeThreshold ∧ a < maxInnerIterations then
      adaptiveInnerIterations calibrationTime timeThreshold maxInnerIterations fuel (2 * a)
    else some a

/-- The main benchmark loop: up to `remaining` further iterations starting at index
`i`; each iteration records `elapsed / innerIterations` as one sample and stops early
(after recording) when the cumulative clock exceeds `maxExecutionTime`. -/
noncomputable def mainLoop (iterationTime clockAfter : ℕ → ℝ) (maxExecutionTime : ℝ)
    (inner : ℕ) : ℕ → ℕ → List ℝ
  | 0, _ => []
  | remaining + 1, i =>
    let iterTime := iterationTime i / (inner : ℝ)
    iterTime ::
      (if maxExecutionTime < clockAfter i then []
       else mainLoop iterationTime clockAfter maxExecutionTime inner remaining (i + 1))

/-- `removeOutliers`: with fewer than `minSamples` samples the buffer is returned
unchanged (not even sorted); otherwise the sorted buffer is filtered to
`[q1 - 1.5·iqr, q3 + 1.5·iqr]`. -/
noncomputable def removeOutliers (minSamples : ℕ) (results : List ℝ) : List ℝ :=
  if results.length < minSamples then results
  else
    let sortedResults := sortedAsc results
    let q1 := getPercentile sortedResults 25
    let q3 := getPercentile sortedResults 75
    let iqr := q3 - q1
    let lowerBound := q1 - 1.5 * iqr
    let upperBound := q3 + 1.5 * iqr
    sortedResults.filter (fun value => decide (lowerBound ≤ value) && decide (value ≤ upperBound))

/-- `run()`: reset `results`, warm up (no effect on the modeled state in a
non-throwing run), fix the inner-loop size adaptively (also persisting it in
`this.innerIterations`), collect samples, and remove outliers.  The `#mean` cache is
*not* reset.  Calibration fuel `maxInnerIterations + 2` suffices for every positive
starting count; `none` models a diverging calibration loop. -/
noncomputable def run (o : BenchmarkOptions) (env : BenchEnv) (s : BenchState) :
    Option BenchState :=
  match adaptiveInnerIterations env.calibrationTime o.timeThreshold o.maxInnerIterations
      (o.maxInnerIterations + 2) s.innerIterations with
  | none => none
  | some inner =>
    let raw := mainLoop env.iterationTime env.clockAfter o.maxExecutionTime inner
      o.maxIterations 0
    some { results := removeOutliers o.minSamples raw, meanCache := s.meanCache,
           innerIterations := inner }

/-- `getAverageTime()`: 0 on an empty buffer; otherwise the `#mean` cache is consulted
with JavaScript truthiness (`if (this.#mean)`), so a cached 0 is recomputed and a
cached nonzero value is returned as is; on a cache miss the arithmetic mean is
computed and cached. -/
noncomputable def getAverageTime (s : BenchState) : ℝ × BenchState :=
  if s.results.length = 0 then (0, s)
  else
    match s.meanCache with
    | some m =>
      if m ≠ 0 then (m, s)
      else
        let averageTime := arithmeticMeanVal s.results
        (averageTime, { s with meanCache := some averageTime })
    | none =>
      let averageTime := arithmeticMeanVal s.results
      (averageTime, { s with meanCache := some averageTime })

/-- `getStandardDeviation()`: 0 on an empty buffer, else the sample standard
deviation. -/
noncomputable def getStandardDeviation (s : BenchState) : JSNum :=
  if s.results.length = 0 then .fin 0
  else sampleStandardDeviationVal s.results

/-- `getOperationsPerSecond()`: 0 on an empty buffer, else `1000 / getAverageTime()`
(a float division with no further guard). -/
noncomputable def getOperationsPerSecond (s : BenchState) : JSNum × BenchState :=
  if s.results.length = 0 then (.fin 0, s)
  else
    let p := getAverageTime s
    (jsDiv (.fin 1000) (.fin p.1), p.2)

/-- `getRME()`: 0 on an empty buffer, else
`relativeMarginOfError(getAverageTime(), getStandardDeviation(), size)`. -/
noncomputable def getRME (s : BenchState) : JSNum × BenchState :=
  if s.results.length = 0 then (.fin 0, s)
  else
    let p := getAverageTime s
    (relativeMarginOfError (.fin p.1) (getStandardDeviation p.2) (.fin p.2.results.length),
      p.2)

/-- `getMarginOfError()`: 0 on an empty buffer. -/
noncomputable def getMarginOfError (s : BenchState) : JSNum :=
  if s.results.length = 0 then .fin 0
  else marginOfError (getStandardDeviation s) (.fin s.results.length)

/-- `getStandardErrorOfTheMean()`: 0 on an empty buffer, else
`getStandardDeviation() / Math.sqrt(results.length)`. -/
noncomputable def getStandardErrorOfTheMean (s : BenchState) : JSNum :=
  if s.results.length = 0 then .fin 0
  else jsDiv (getStandardDeviation s) (jsSqrt (.fin s.results.length))

/-- `getSampleVariance()`: 0 on an empty buffer. -/
noncomputable def getSampleVariance (s : BenchState) : JSNum :=
  if s.results.length = 0 then .fin 0
  else sampleVarianceVal s.results

/-- `getMedian()`: 0 on an empty buffer. -/
noncomputable def getMedian (s : BenchState) : ℝ :=
  if s.results.length = 0 then 0
  else medianVal s.results

/-- The numeric content of a `BenchmarkReport` produced by `getReport()` (the
identification fields `name` and `date` carry no measured content and are omitted
from the measurer model; the wire-format field set itself is modeled separately for
the validator). -/
structure BenchmarkReport where
  ops : JSNum
  rme : JSNum
  stddev : JSNum
  mean : ℝ
  me : JSNum
  sample : List ℝ
  sem : JSNum
  variance : JSNum
  size : ℕ
  median : ℝ

/-- `getReport()`: assembles the report, evaluating the getters in the order of the
object literal; `getOperationsPerSecond`, `getRME` and the `mean` field consult (and
possibly fill) the `#mean` cache, so the cache state is threaded through. -/
noncomputable def getReport (s : BenchState) : BenchmarkReport × BenchState :=
  let pOps := getOperationsPerSecond s
  let pRme := getRME pOps.2
  let s1 := pRme.2
  let stddev := getStandardDeviation s1
  let pMean := getAverageTime s1
  let s2 := pMean.2
  ({ ops := pOps.1
     rme := pRme.1
     stddev := stddev
     mean := pMean.1
     me := getMarginOfError s2
     sample := s2.results
     sem := getStandardErrorOfTheMean s2
     variance := getSampleVariance s2
     size := s2.results.length
     median := getMedian s2 }, s2)

/-! ### Report validators (`src/validators.ts`)

The validators receive arbitrary JSON-like runtime values, so reports are modeled
here as dynamic JavaScript values.  Only the shapes the validators distinguish are
needed: numbers, strings, arrays and plain objects. -/

/-- A JSON-like JavaScript runtime value. -/
inductive JSValue where
  | num (n : JSNum)
  | str (s : String)
  | arr (elems : List JSValue)
  | obj (fields : List (String × JSValue))

/-- Property access: the value of the first binding of `key`, if any
(`undefined` otherwise). -/
def lookupField (fields : List (String × JSValue)) (key : String) : Option JSValue :=
  (fields.find? (fun p => p.1 == key)).map (fun p => p.2)

/-- The `prop in report` test. -/
def hasField (fields : List (String × JSValue)) (key : String) : Bool :=
  (lookupField fields key).isSome

/-- `typeof report.key === 'string'`. -/
def isStringField (fields : List (String × JSValue)) (key : String) : Bool :=
  match lookupField fields key with
  | some (.str _) => true
  | _ => false

/-- `typeof report.key === 'number' && !(report.key < 0)`, the negation of the
source's rejection test `typeof x !== 'number' || x < 0`.  (NaN is a number and
`NaN < 0` is false, so a NaN field passes, as in the source.) -/
noncomputable def isNonNegativeNumberField (fields : List (String × JSValue))
    (key : String) : Bool :=
  match lookupField fields key with
  | some (.num n) => !(jsLt n (.fin 0))
  | _ => false

/-- `Array.isArray(report.key)`. -/
def isArrayField (fields : List (String × JSValue)) (key : String) : Bool :=
  match lookupField fields key with
  | some (.arr _) => true
  | _ => false

/-- `report.key === value` for a string literal `value`. -/
def fieldEqString (fields : List (String × JSValue)) (key value : String) : Bool :=
  match lookupField fields key with
  | some (.str s) => s == value
  | _ => false

/-- A validation issue (`FieldValidationMessage`). -/
structure FieldValidationMessage where
  message : String
  field : String
  rule : String
deriving DecidableEq

/-- The object shape seen by the validators: a non-object primitive fails the
`typeof report !== 'object' || report === null` check; an array passes it
(`typeof [] === 'object'`) but has none of the checked own properties. -/
def objectFields : JSValue → Option (List (String × JSValue))
  | .obj fields => some fields
  | .arr _ => some []
  | _ => none

/-- The `requiredProperties` list of `validateBenchmarkReport`.  (The repository
carries two copies of `validators.ts`; the one embedded here is the copy packed
with the exception sources, whose property names agree with the `BenchmarkReport`
type in `types.ts` and with the validator unit tests.  The other copy demands
legacy property names such as `operationsPerSecond` that no longer exist on the
`BenchmarkReport` type, so it does not type-check against `types.ts` and is dead.) -/
def requiredBenchmarkReportProperties : List String :=
  ["name", "ops", "size", "rme", "stddev", "me", "mean", "variance", "date"]

/-- The missing-properties issue shared by both validators: one issue naming the
single missing property, or one issue listing all of them. -/
def missingPropertiesIssues (missing : List String) : List FieldValidationMessage :=
  if missing.length = 1 then
    [{ message := "Missing property \"" ++ missing.headD "" ++ "\".",
       field := missing.headD "", rule := "required" }]
  else if 1 < missing.length then
    [{ message := "Missing properties: " ++ String.intercalate ", " missing ++ ".",
       field := String.intercalate ", " missing, rule := "required" }]
  else []

/-- `validateBenchmarkReport`: lists every issue found, in the order the source
pushes them. -/
noncomputable def validateBenchmarkReport (report : JSValue) :
    List FieldValidationMessage :=
  match objectFields report with
  | none => [{ message := "Report must be an object.", field := "", rule := "type" }]
  | some fields =>
    let missing := requiredBenchmarkReportProperties.filter
      (fun prop => !(hasField fields prop))
    missingPropertiesIssues missing ++
    (if !(isStringField fields "name") then
      [{ message := "\"name\" must be a string.", field := "name", rule := "type" }]
     else []) ++
    (if !(isNonNegativeNumberField fields "ops") then
      [{ message := "\"ops\" must be a non-negative number.",
         field := "ops", rule := "type" }]
     else []) ++
    (if !(isNonNegativeNumberField fields "size") then
      [{ message := "\"size\" must be a non-negative number.",
         field := "size", rule := "type" }]
     else []) ++
    (if !(isNonNegativeNumberField fields "rme") then
      [{ message := "\"rme\" must be a non-negative number.",
         field := "rme", rule := "type" }]
     else []) ++
    (if !(isNonNegativeNumberField fields "stddev") then
      [{ message := "\"stddev\" must be a non-negative number.",
         field := "stddev", rule := "type" }]
     else []) ++
    (if !(isNonNegativeNumberField fields "me") then
      [{ message := "\"me\" must be a non-negative number.",
         field := "me", rule := "type" }]
     else []) ++
    (if !(isNonNegativeNumberField fields "mean") then
      [{ message := "\"mean\" must be a non-negative number.",
         field := "mean", rule := "type" }]
     else []) ++
    (if !(isNonNegativeNumberField fields "variance") then
      [{ message := "\"variance\" must be a non-negative number.",
         field := "variance", rule := "type" }]
     else []) ++
    (if !(isStringField fields "date") then
      [{ message := "\"date\" must be a string.", field := "date", rule := "type" }]
     else [])

/-- `validateSuiteReport`. -/
def validateSuiteReport (report : JSValue) : List FieldValidationMessage :=
  match objectFields report with
  | none => [{ message := "Report must be an object.", field := "", rule := "type" }]
  | some fields =>
    let missing := (["kind", "name", "date", "results"] : List String).filter
      (fun prop => !(hasField fields prop))
    missingPropertiesIssues missing ++
    (if !(fieldEqString fields "kind" "suite") then
      [{ message := "\"kind\" must be \"suite\".", field := "kind", rule := "value" }]
     else []) ++
    (if !(isStringField fields "name") then
      [{ message := "\"name\" must be a string.", field := "name", rule := "type" }]
     else []) ++
    (if !(isStringField fields "date") then
      [{ message := "\"date\" must be a string.", field := "date", rule := "type" }]
     else []) ++
    (if !(isArrayField fields "results") then
      [{ message := "\"results\" must be an array.", field := "results", rule := "type" }]
     else [])

/-! ### Two-sample comparator (`src/compare.ts`) -/

/-- The comparator-side view of a `BenchmarkReport` value: the fields `compare`
reads.  Arbitrary caller-supplied reports are allowed, so every numeric field is a
general JavaScript number. -/
structure BReport where
  name : String
  ops : JSNum
  rme : JSNum
  stddev : JSNum
  mean : JSNum
  me : JSNum
  sample : List JSNum
  sem : JSNum
  variance : JSNum
  size : JSNum
  date : String
  median : JSNum

/-- `ComparisonResult`. -/
structure ComparisonResult where
  a : BReport
  b : BReport
  ts : JSNum
  df : JSNum
  p : JSNum
  different : Bool
  aWins : Bool
  dmean : JSNum
  pmean : JSNum
  dops : JSNum
  pops : JSNum
  lci : JSNum
  uci : JSNum
  cohensd : JSNum
  sed : JSNum
  dmedian : JSNum
  pmedian : JSNum

/-- `compare(a, b)`: Welch's t statistic, Welch–Satterthwaite degrees of freedom and
the two-tailed p-value (whose guard failures propagate as thrown errors), plus the
derived difference fields, computed exactly as in the source. -/
noncomputable def compare (a b : BReport) : Except String ComparisonResult :=
  let mean1 := a.mean
  let mean2 := b.mean
  let s1 := a.stddev
  let s2 := b.stddev
  let n1 := a.size
  let n2 := b.size
  let ops1 := a.ops
  let ops2 := b.ops
  let median1 := a.median
  let median2 := b.median
  let tStarts := calculateTStatistic mean1 mean2 s1 s2 n1 n2
  let df := calculateDegreesOfFreedom s1 s2 n1 n2
  match calculatePValue tStarts df with
  | .error e => .error e
  | .ok pValue =>
    let alpha : JSNum := .fin 0.05
    let isSignificantlyDifferent := jsLe pValue alpha
    let isReportAFaster := jsLt mean1 mean2
    let diff := jsSub mean2 mean1
    let diffPercent := jsMul (jsDiv diff mean1) (.fin 100)
    let diffOps := jsSub ops2 ops1
    let diffOpsPercent := jsMul (jsDiv diffOps ops1) (.fin 100)
    let moe1 := marginOfError s1 n1
    let moe2 := marginOfError s2 n2
    let confidenceIntervalLower := jsSub diff (jsAdd moe1 moe2)
    let confidenceIntervalUpper := jsAdd diff (jsAdd moe1 moe2)
    let cohensd := calculateCohensD mean1 mean2 s1 s2 n1 n2
    let standardErrorOfTheDifference :=
      jsSqrt (jsAdd (jsDiv (jsMul s1 s1) n1) (jsDiv (jsMul s2 s2) n2))
    let medianDifference := jsSub median2 median1
    let medianDifferencePercent := jsMul (jsDiv medianDifference median1) (.fin 100)
    .ok { a := a, b := b, ts := tStarts, df := df, p := pValue,
          different := isSignificantlyDifferent, aWins := isReportAFaster,
          dmean := diff, pmean := diffPercent, dops := diffOps,
          pops := diffOpsPercent, lci := confidenceIntervalLower,
          uci := confidenceIntervalUpper, cohensd := cohensd,
          sed := standardErrorOfTheDifference, dmedian := medianDifference,
          pmedian := medianDifferencePercent }

/-- Reading a numeric report field inside `compare` when the report is a dynamic
value: a missing field is `undefined` and behaves as NaN in the arithmetic `compare`
performs; non-numeric field values are likewise collapsed to NaN (JavaScript's
coercion of numeric strings is not modeled; nothing here exercises it). -/
def readNumField (fields : List (String × JSValue)) (key : String) : JSNum :=
  match lookupField fields key with
  | some (.num n) => n
  | _ => .nan

/-- Reading a string report field; missing or non-string values are collapsed to
the empty string (only identification fields, never used numerically). -/
def readStrField (fields : List (String × JSValue)) (key : String) : String :=
  match lookupField fields key with
  | some (.str s) => s
  | _ => ""

/-- The property list of a dynamic value treated as an object. -/
def objFields : JSValue → List (String × JSValue)
  | .obj fields => fields
  | _ => []

/-- The comparator-side view of a dynamic benchmark-report value. -/
def objToBReport (v : JSValue) : BReport :=
  let fields := objFields v
  { name := readStrField fields "name"
    ops := readNumField fields "ops"
    rme := readNumField fields "rme"
    stddev := readNumField fields "stddev"
    mean := readNumField fields "mean"
    me := readNumField fields "me"
    sample := (match lookupField fields "sample" with
      | some (.arr l) => l.map (fun e => match e with | .num n => n | _ => .nan)
      | _ => [])
    sem := readNumField fields "sem"
    variance := readNumField fields "variance"
    size := readNumField fields "size"
    date := readStrField fields "date"
    median := readNumField fields "median" }

/-- The errors `compareFunction` can throw. -/
inductive CompareFnError where
  | suiteValidation (issues : List FieldValidationMessage)
  | reportValidation (issues : List FieldValidationMessage)
  | benchmarkMissing (functionName suiteName : String)
  | tooFewReports (functionName : String)
  | statsError (msg : String)

/-- `suiteReport.results.find((r) => r.name === functionName)`.  Suite validation has
already ensured `results` is an array when this is reached. -/
def findBenchmarkReport (suiteReport : JSValue) (functionName : String) :
    Option JSValue :=
  match lookupField (objFields suiteReport) "results" with
  | some (.arr l) => l.find? (fun r =>
      match lookupField (objFields r) "name" with
      | some (.str s) => s == functionName
      | _ => false)
  | _ => none

/-- The report-collection loop of `compareFunction`: validate each suite report,
extract the benchmark report matching `functionName`, validate it, and fail fast on
the first problem. -/
noncomputable def collectFunctionReports (functionName : String) :
    List JSValue → Except CompareFnError (List JSValue)
  | [] => .ok []
  | suiteReport :: rest =>
    let suiteIssues := validateSuiteReport suiteReport
    if suiteIssues ≠ [] then .error (.suiteValidation suiteIssues)
    else
      match findBenchmarkReport suiteReport functionName with
      | some report =>
        let reportIssues := validateBenchmarkReport report
        if reportIssues ≠ [] then .error (.reportValidation reportIssues)
        else
          match collectFunctionReports functionName rest with
          | .error e => .error e
          | .ok tail => .ok (report :: tail)
      | none =>
        .error (.benchmarkMissing functionName
          (readStrField (objFields suiteReport) "name"))

/-- The index pairs `(i, j)` with `i < j` of the source's nested comparison loops,
in loop order. -/
def allPairs {α : Type} : List α → List (α × α)
  | [] => []
  | x :: xs => xs.map (fun y => (x, y)) ++ allPairs xs

/-- The pairwise-comparison loop of `compareFunction`: push each `compare` result in
loop order; an error thrown by `compare` propagates immediately (the source does not
catch it). -/
noncomputable def comparePairs :
    List (JSValue × JSValue) → Except CompareFnError (List ComparisonResult)
  | [] => .ok []
  | pr :: rest =>
    match compare (objToBReport pr.1) (objToBReport pr.2) with
    | .error e => .error (.statsError e)
    | .ok r =>
      match comparePairs rest with
      | .error e => .error e
      | .ok tail => .ok (r :: tail)

/-- `compareFunction(functionName, suiteReports)` with default options (no `filter`,
no `sort`; the `Array.isArray` precheck is satisfied by the typed argument): collect
and validate the matching reports, require at least two, then produce all pairwise
`compare` results in input order. -/
noncomputable def compareFunction (functionName : String)
    (suiteReports : List JSValue) : Except CompareFnError (List ComparisonResult) :=
  match collectFunctionReports functionName suiteReports with
  | .error e => .error e
  | .ok functionReports =>
    if functionReports.length < 2 then .error (.tooFewReports functionName)
    else comparePairs (allPairs functionReports)

/-! ### Concrete scenario inputs used by the claim theorems -/

/-- Options with two timed samples and all other options at their defaults
(in particular `minSamples = 10`). -/
def twoIterationOptions : BenchmarkOptions := { maxIterations := 2 }

/-- An environment whose calibration batches are slow (1000 ms ≥ the 1 ms threshold,
so the inner-loop size stays at 10) and whose two main-loop batches take 10 ms and
30 ms, i.e. 1 ms/op and 3 ms/op. -/
noncomputable def envSamples_1_3 : BenchEnv :=
  { calibrationTime := fun _ => 1000, iterationTime := fun i => if i = 0 then 10 else 30,
    clockAfter := fun _ => 0 }

/-- Like `envSamples_1_3` but with per-op times of 5 ms and 7 ms. -/
noncomputable def envSamples_5_7 : BenchEnv :=
  { calibrationTime := fun _ => 1000, iterationTime := fun i => if i = 0 then 50 else 70,
    clockAfter := fun _ => 0 }

/-- Like `envSamples_1_3` but with per-op times of 5 ms and 3 ms (slower first). -/
noncomputable def envSamples_5_3 : BenchEnv :=
  { calibrationTime := fun _ => 1000, iterationTime := fun i => if i = 0 then 50 else 30,
    clockAfter := fun _ => 0 }

/-- An environment with slow calibration batches (no adaptive growth) whose main-loop
batches measure 0 ms elapsed (timer resolution exhausted): every sample is 0. -/
noncomputable def envZeroSamples : BenchEnv :=
  { calibrationTime := fun _ => 1000, iterationTime := fun _ => 0,
    clockAfter := fun _ => 0 }

/-- An environment in which every batch measures 0 ms elapsed (a function far below
timer resolution). -/
noncomputable def envAllZero : BenchEnv :=
  { calibrationTime := fun _ => 0, iterationTime := fun _ => 0, clockAfter := fun _ => 0 }

/-- State after `run()` collected samples 1 and 3 on a fresh instance. -/
noncomputable def stateSamples_1_3 : BenchState :=
  { results := [1, 3], meanCache := none, innerIterations := 10 }

/-- `stateSamples_1_3` after `getReport()` cached the mean 2. -/
noncomputable def stateSamples_1_3_cached : BenchState :=
  { results := [1, 3], meanCache := some 2, innerIterations := 10 }

/-- State after a second `run()` collected samples 5 and 7 while the stale cached
mean 2 of the first run is still present. -/
noncomputable def stateSamples_5_7_staleCache : BenchState :=
  { results := [5, 7], meanCache := some 2, innerIterations := 10 }

/-- State after `run()` collected samples 5 and 3 (below `minSamples`, so they were
left unsorted). -/
noncomputable def stateSamples_5_3 : BenchState :=
  { results := [5, 3], meanCache := none, innerIterations := 10 }

/-- State after `run()` collected samples 0 and 0 on a fresh instance. -/
noncomputable def stateSamples_0_0 : BenchState :=
  { results := [0, 0], meanCache := none, innerIterations := 10 }

/-- Options with no timed samples and all other options at their defaults. -/
def zeroIterationOptions : BenchmarkOptions := { maxIterations := 0 }

/-- The calibration overshoot state: an always-fast function doubles the inner-loop
size from 10 past the ceiling 10000, to 10240. -/
noncomputable def stateOvershoot : BenchState :=
  { results := [], meanCache := none, innerIterations := 10240 }

/-- A report record carrying exactly the wire-format fields of the current
`BenchmarkReport` type (`ops`, `rme`, `stddev`, `mean`, `me`, `sample`, `sem`,
`variance`, `size`, `median`, `name`, `date`), all numeric values non-negative. -/
noncomputable def currentFormatReportObj : JSValue := .obj
  [("ops", .num (.fin 1000)), ("rme", .num (.fin 1)), ("stddev", .num (.fin 1)),
   ("mean", .num (.fin 1)), ("me", .num (.fin 1)), ("sample", .arr [.num (.fin 1)]),
   ("sem", .num (.fin 1)), ("variance", .num (.fin 1)), ("size", .num (.fin 5)),
   ("median", .num (.fin 1)), ("name", .str "f"), ("date", .str "2024-01-01")]

/-- A structurally valid suite report containing `currentFormatReportObj`. -/
noncomputable def currentFormatSuiteObj : JSValue := .obj
  [("kind", .str "suite"), ("name", .str "s"), ("date", .str "2024-01-01"),
   ("results", .arr [currentFormatReportObj])]

/-- The comparator-side view of `currentFormatReportObj`
(`objToBReport currentFormatReportObj` reduces to this record). -/
noncomputable def currentFormatBReport : BReport :=
  { name := "f", ops := .fin 1000, rme := .fin 1, stddev := .fin 1, mean := .fin 1,
    me := .fin 1, sample := [.fin 1], sem := .fin 1, variance := .fin 1,
    size := .fin 5, date := "2024-01-01", median := .fin 1 }

/-- A degenerate but structurally valid report: exactly the twelve current
wire-format fields, all numeric values non-negative, with standard deviation
and variance 0.  Every validator check passes on it. -/
noncomputable def degenerateReportObj : JSValue := .obj
  [("ops", .num (.fin 0)), ("rme", .num (.fin 0)), ("stddev", .num (.fin 0)),
   ("mean", .num (.fin 5)), ("me", .num (.fin 0)), ("sample", .arr []),
   ("sem", .num (.fin 0)), ("variance", .num (.fin 0)), ("size", .num (.fin 5)),
   ("median", .num (.fin 5)), ("name", .str "f"), ("date", .str "2024-01-01")]

/-- A structurally valid suite report containing `degenerateReportObj`. -/
noncomputable def degenerateSuiteObj : JSValue := .obj
  [("kind", .str "suite"), ("name", .str "s"), ("date", .str "2024-01-01"),
   ("results", .arr [degenerateReportObj])]

/-- The comparator-side view of `degenerateReportObj`
(`objToBReport degenerateReportObj` reduces to this record). -/
noncomputable def degenerateBReport : BReport :=
  { name := "f", ops := .fin 0, rme := .fin 0, stddev := .fin 0, mean := .fin 5,
    me := .fin 0, sample := [], sem := .fin 0, variance := .fin 0,
    size := .fin 5, date := "2024-01-01", median := .fin 5 }

/-- A benchmark report with mean 10, standard deviation 3 and size 9, on which
`compare` succeeds. -/
noncomputable def reportMean10 : BReport :=
  { name := "x", ops := .fin 100, rme := .fin 0, stddev := .fin 3, mean := .fin 10,
    me := .fin 0, sample := [], sem := .fin 0, variance := .fin 9, size := .fin 9,
    date := "d", median := .fin 10 }

/-- `reportMean10` with mean 12 instead. -/
noncomputable def reportMean12 : BReport :=
  { reportMean10 with mean := .fin 12 }

/-! ### Helper lemmas -/

@[simp] theorem isNaN_fin (x : ℝ) : (JSNum.fin x).isNaN = false := rfl

@[simp] theorem isNaN_inf : (JSNum.inf).isNaN = false := rfl

@[simp] theorem isNaN_ninf : (JSNum.ninf).isNaN = false := rfl

@[simp] theorem isNaN_nan : (JSNum.nan).isNaN = true := rfl

@[simp] theorem jsNeg_fin (x : ℝ) : jsNeg (.fin x) = .fin (-x) := rfl

@[simp] theorem isNaN_jsNeg (x : JSNum) : (jsNeg x).isNaN = x.isNaN := by
  cases x <;> rfl

@[simp] theorem jsAdd_fin_fin (a b : ℝ) : jsAdd (.fin a) (.fin b) = .fin (a + b) := rfl

@[simp] theorem jsSub_fin_fin (a b : ℝ) : jsSub (.fin a) (.fin b) = .fin (a - b) := by
  simp [jsSub, jsAdd, jsNeg, sub_eq_add_neg]

@[simp] theorem jsMul_fin_fin (a b : ℝ) : jsMul (.fin a) (.fin b) = .fin (a * b) := rfl

theorem jsDiv_fin_fin {b : ℝ} (a : ℝ) (h : b ≠ 0) :
    jsDiv (.fin a) (.fin b) = .fin (a / b) := by
  simp [jsDiv, h]

@[simp] theorem jsDiv_zero_zero : jsDiv (.fin 0) (.fin 0) = .nan := by
  simp [jsDiv]

theorem jsDiv_pos_zero {a : ℝ} (h : 0 < a) : jsDiv (.fin a) (.fin 0) = .inf := by
  simp [jsDiv, h, ne_of_gt h]

theorem jsSqrt_fin {x : ℝ} (h : 0 ≤ x) : jsSqrt (.fin x) = .fin (Real.sqrt x) := by
  simp [jsSqrt, not_lt.2 h]

@[simp] theorem jsAbs_fin (x : ℝ) : jsAbs (.fin x) = .fin |x| := rfl

@[simp] theorem jsAbs_jsNeg (x : JSNum) : jsAbs (jsNeg x) = jsAbs x := by
  cases x <;> simp [jsAbs, jsNeg]

@[simp] theorem jsLt_fin_fin (a b : ℝ) : jsLt (.fin a) (.fin b) = decide (a < b) := rfl

@[simp] theorem jsLe_fin_fin (a b : ℝ) : jsLe (.fin a) (.fin b) = decide (a ≤ b) := rfl

theorem jsAdd_comm (x y : JSNum) : jsAdd x y = jsAdd y x := by
  cases x <;> cases y <;> simp [jsAdd, add_comm]

theorem jsSub_antisymm (x y : JSNum) : jsSub x y = jsNeg (jsSub y x) := by
  cases x <;> cases y <;> simp [jsSub, jsAdd, jsNeg]

theorem jsDiv_neg_left (x y : JSNum) : jsDiv (jsNeg x) y = jsNeg (jsDiv x y) := by
  cases x <;> cases y
  case fin.fin a b =>
    rw [jsNeg_fin]
    by_cases hb : b = 0
    · subst hb
      by_cases ha : a = 0
      · subst ha; norm_num [jsDiv, jsNeg]
      · rcases lt_trichotomy a 0 with h | h | h
        · have l1 : jsDiv (.fin (-a)) (.fin 0) = .inf := by
            simp [jsDiv, neg_eq_zero, ha, neg_pos, h]
          have l2 : jsDiv (.fin a) (.fin 0) = .ninf := by
            simp [jsDiv, ha, not_lt.2 h.le]
          rw [l1, l2]; rfl
        · exact absurd h ha
        · have l1 : jsDiv (.fin (-a)) (.fin 0) = .ninf := by
            simp [jsDiv, neg_eq_zero, ha, not_lt.2 (neg_nonpos.2 h.le)]
          have l2 : jsDiv (.fin a) (.fin 0) = .inf := by
            simp [jsDiv, ha, h]
          rw [l1, l2]; rfl
    · rw [jsDiv_fin_fin _ hb, jsDiv_fin_fin _ hb, jsNeg_fin, neg_div]
  case fin.inf a => simp [jsDiv, jsNeg]
  case fin.ninf a => simp [jsDiv, jsNeg]
  case fin.nan a => rfl
  case inf.fin b => by_cases hb : 0 ≤ b <;> simp [jsDiv, jsNeg, hb]
  case inf.inf => rfl
  case inf.ninf => rfl
  case inf.nan => rfl
  case ninf.fin b => by_cases hb : 0 ≤ b <;> simp [jsDiv, jsNeg, hb]
  case ninf.inf => rfl
  case ninf.ninf => rfl
  case ninf.nan => rfl
  case nan.fin b => rfl
  case nan.inf => rfl
  case nan.ninf => rfl
  case nan.nan => rfl

theorem jsLt_irrefl (x : JSNum) : jsLt x x = false := by
  cases x <;> simp [jsLt]

theorem jsLt_flip {x y : JSNum} (hx : x.isNaN = false) (hy : y.isNaN = false)
    (hxy : x ≠ y) : jsLt y x = !jsLt x y := by
  cases x <;> cases y <;> simp_all [jsLt, JSNum.isNaN]
  case fin.fin a b =>
    rcases lt_trichotomy a b with h | h | h
    · simp [h, not_lt.2 (le_of_lt h)]
    · exact absurd (by rw [h]) hxy
    · simp [h, not_lt.2 (le_of_lt h)]

@[simp] theorem jsAdd_nan_right (x : JSNum) : jsAdd x .nan = .nan := by cases x <;> rfl

@[simp] theorem jsAdd_nan_left (x : JSNum) : jsAdd .nan x = .nan := by cases x <;> rfl

@[simp] theorem jsSub_nan_left (x : JSNum) : jsSub .nan x = .nan := by
  rw [jsSub]; cases x <;> rfl

@[simp] theorem jsSub_nan_right (x : JSNum) : jsSub x .nan = .nan := by
  cases x <;> rfl

@[simp] theorem jsDiv_nan_left (x : JSNum) : jsDiv .nan x = .nan := by cases x <;> rfl

theorem calculatePValue_jsNeg (t df : JSNum) :
    calculatePValue (jsNeg t) df = calculatePValue t df := by
  simp only [calculatePValue, isNaN_jsNeg, jsAbs_jsNeg]

theorem calculateTStatistic_swap (m1 m2 s1 s2 n1 n2 : JSNum) :
    calculateTStatistic m2 m1 s2 s1 n2 n1 =
      jsNeg (calculateTStatistic m1 m2 s1 s2 n1 n2) := by
  simp only [calculateTStatistic]
  rw [jsAdd_comm (jsDiv (jsMul s2 s2) n2) (jsDiv (jsMul s1 s1) n1),
    jsSub_antisymm m2 m1, jsDiv_neg_left]

theorem calculateDegreesOfFreedom_comm (s1 s2 n1 n2 : JSNum) :
    calculateDegreesOfFreedom s2 s1 n2 n1 = calculateDegreesOfFreedom s1 s2 n1 n2 := by
  simp only [calculateDegreesOfFreedom]
  rw [jsAdd_comm (jsDiv (jsMul s2 s2) n2) (jsDiv (jsMul s1 s1) n1),
    jsAdd_comm (jsDiv (jsMul (jsDiv (jsMul s2 s2) n2) (jsDiv (jsMul s2 s2) n2))
      (jsSub n2 (.fin 1)))
      (jsDiv (jsMul (jsDiv (jsMul s1 s1) n1) (jsDiv (jsMul s1 s1) n1))
      (jsSub n1 (.fin 1)))]

theorem calculateCohensD_swap (m1 m2 s1 s2 n1 n2 : JSNum) :
    calculateCohensD m2 m1 s2 s1 n2 n1 = jsNeg (calculateCohensD m1 m2 s1 s2 n1 n2) := by
  simp only [calculateCohensD]
  rw [jsAdd_comm (jsMul (jsSub n2 (.fin 1)) (jsMul s2 s2))
      (jsMul (jsSub n1 (.fin 1)) (jsMul s1 s1)),
    jsAdd_comm n2 n1, jsSub_antisymm m2 m1, jsDiv_neg_left]

theorem calculatePValue_ok_not_nan {t d : JSNum} {p : JSNum}
    (h : calculatePValue t d = .ok p) : t.isNaN = false := by
  by_cases ht : t.isNaN
  · rw [calculatePValue, if_pos (by simp [ht])] at h
    exact Except.noConfusion h
  · simpa using ht

theorem calculateTStatistic_not_nan {m1 m2 s1 s2 n1 n2 : JSNum}
    (h : (calculateTStatistic m1 m2 s1 s2 n1 n2).isNaN = false) :
    m1.isNaN = false ∧ m2.isNaN = false := by
  constructor
  · by_cases h1 : m1.isNaN
    · cases m1 <;> simp_all [calculateTStatistic]
    · simpa using h1
  · by_cases h2 : m2.isNaN
    · cases m2 <;> simp_all [calculateTStatistic]
    · simpa using h2

theorem adaptiveInnerIterations_stop {τ : ℕ → ℝ} {thr : ℝ} {M fuel a : ℕ}
    (h : ¬ (τ a < thr ∧ a < M)) :
    adaptiveInnerIterations τ thr M (fuel + 1) a = some a := by
  simp only [adaptiveInnerIterations, if_neg h]

theorem adaptiveInnerIterations_step {τ : ℕ → ℝ} {thr : ℝ} {M fuel a : ℕ}
    (h : τ a < thr ∧ a < M) :
    adaptiveInnerIterations τ thr M (fuel + 1) a =
      adaptiveInnerIterations τ thr M fuel (2 * a) := by
  simp only [adaptiveInnerIterations, if_pos h]

theorem adaptiveInnerIterations_isSome (τ : ℕ → ℝ) (thr : ℝ) (M : ℕ) :
    ∀ fuel a, 1 ≤ a → M ≤ a + fuel →
      (adaptiveInnerIterations τ thr M (fuel + 1) a).isSome := by
  intro fuel
  induction fuel with
  | zero =>
    intro a ha hM
    rw [adaptiveInnerIterations_stop]
    · rfl
    · rintro ⟨-, hlt⟩
      omega
  | succ fuel ih =>
    intro a ha hM
    by_cases h : τ a < thr ∧ a < M
    · rw [adaptiveInnerIterations_step h]
      exact ih (2 * a) (by omega) (by omega)
    · rw [adaptiveInnerIterations_stop h]
      rfl

theorem run_isSome (o : BenchmarkOptions) (env : BenchEnv) (s : BenchState)
    (h : 1 ≤ s.innerIterations) : (run o env s).isSome := by
  rw [run]
  have := adaptiveInnerIterations_isSome env.calibrationTime o.timeThreshold
    o.maxInnerIterations (o.maxInnerIterations + 1) s.innerIterations h (by omega)
  rw [show o.maxInnerIterations + 2 = o.maxInnerIterations + 1 + 1 from rfl]
  rcases Option.isSome_iff_exists.1 this with ⟨n, hn⟩
  rw [hn]
  rfl

theorem getReport_empty (s : BenchState) (h : s.results = []) :
    (getReport s).1 =
      { ops := .fin 0, rme := .fin 0, stddev := .fin 0, mean := 0, me := .fin 0,
        sample := [], sem := .fin 0, variance := .fin 0, size := 0, median := 0 } := by
  simp [getReport, getOperationsPerSecond, getRME, getAverageTime, getStandardDeviation,
    getMarginOfError, getStandardErrorOfTheMean, getSampleVariance, getMedian, h]

theorem mainLoop_zero (it ck : ℕ → ℝ) (me : ℝ) (inner i : ℕ) :
    mainLoop it ck me inner 0 i = [] := rfl

theorem removeOutliers_nil (m : ℕ) : removeOutliers m [] = [] := by
  by_cases h : (0 : ℕ) < m
  · simp [removeOutliers, h]
  · simp [removeOutliers, sortedAsc, Nat.eq_zero_of_not_pos h]

theorem sorted_getD_mono {l : List ℝ} (hs : List.Sorted (· ≤ ·) l) {i j : ℕ}
    (hij : i ≤ j) (hj : j < l.length) : l.getD i 0 ≤ l.getD j 0 := by
  rw [List.getD_eq_getElem l 0 (lt_of_le_of_lt hij hj), List.getD_eq_getElem l 0 hj]
  have h := hs.rel_get_of_le (a := ⟨i, lt_of_le_of_lt hij hj⟩) (b := ⟨j, hj⟩)
    (by exact hij)
  simpa using h

theorem getPercentile_bounds {l : List ℝ} (hs : List.Sorted (· ≤ ·) l)
    (hn : 1 ≤ l.length) {p : ℝ} (hp0 : 0 ≤ p / 100 * ((l.length : ℝ) - 1))
    (hp1 : p / 100 * ((l.length : ℝ) - 1) ≤ (l.length : ℝ) - 1) :
    l.getD (⌊p / 100 * ((l.length : ℝ) - 1)⌋.toNat) 0 ≤ getPercentile l p ∧
    getPercentile l p ≤ l.getD (⌈p / 100 * ((l.length : ℝ) - 1)⌉.toNat) 0 := by
  set idx := p / 100 * ((l.length : ℝ) - 1) with hidx
  have hfl0 : (0 : ℤ) ≤ ⌊idx⌋ := Int.floor_nonneg.2 hp0
  have hceil : ⌈idx⌉ ≤ (l.length : ℤ) - 1 := by
    rw [Int.ceil_le]; push_cast; exact hp1
  have hceilNat : ⌈idx⌉.toNat < l.length := by
    have h1 : ⌈idx⌉.toNat ≤ ((l.length : ℤ) - 1).toNat := Int.toNat_le_toNat hceil
    omega
  have hfc : ⌊idx⌋.toNat ≤ ⌈idx⌉.toNat := Int.toNat_le_toNat (Int.floor_le_ceil idx)
  have hab : l.getD ⌊idx⌋.toNat 0 ≤ l.getD ⌈idx⌉.toNat 0 :=
    sorted_getD_mono hs hfc hceilNat
  have hw0 : 0 ≤ idx - (⌊idx⌋ : ℝ) := by
    have := Int.floor_le idx; linarith
  have hw1 : idx - (⌊idx⌋ : ℝ) ≤ 1 := by
    have := Int.lt_floor_add_one idx; linarith
  constructor
  · show l.getD ⌊idx⌋.toNat 0 ≤
      l.getD ⌊idx⌋.toNat 0 * (1 - (idx - (⌊idx⌋ : ℝ))) +
      l.getD ⌈idx⌉.toNat 0 * (idx - (⌊idx⌋ : ℝ))
    nlinarith [mul_nonneg hw0 (sub_nonneg.2 hab)]
  · show l.getD ⌊idx⌋.toNat 0 * (1 - (idx - (⌊idx⌋ : ℝ))) +
      l.getD ⌈idx⌉.toNat 0 * (idx - (⌊idx⌋ : ℝ)) ≤ l.getD ⌈idx⌉.toNat 0
    nlinarith [mul_nonneg (sub_nonneg.2 hw1) (sub_nonneg.2 hab)]

theorem ceil_q1_le_floor_q3 {n : ℕ} (hn : 1 ≤ n) (hn2 : n ≠ 2) :
    ⌈(25 : ℝ) / 100 * ((n : ℝ) - 1)⌉ ≤ ⌊(75 : ℝ) / 100 * ((n : ℝ) - 1)⌋ := by
  rcases Nat.lt_or_ge n 3 with h3 | h3
  · interval_cases n
    · norm_num
    · omega
  · have hm : (2 : ℝ) ≤ (n : ℝ) - 1 := by
      have : (3 : ℝ) ≤ (n : ℝ) := by exact_mod_cast h3
      linarith
    rw [Int.le_floor]
    have h1 : (⌈(25 : ℝ) / 100 * ((n : ℝ) - 1)⌉ : ℝ) <
        (25 : ℝ) / 100 * ((n : ℝ) - 1) + 1 := Int.ceil_lt_add_one _
    have h2 : (25 : ℝ) / 100 * ((n : ℝ) - 1) + 1 ≤ (75 : ℝ) / 100 * ((n : ℝ) - 1) := by
      nlinarith
    linarith

theorem exists_ok_of_isOk {ε α : Type} {e : Except ε α} (h : e.isOk = true) :
    ∃ a, e = .ok a := by
  cases e with
  | error err => simp [Except.isOk, Except.toBool] at h
  | ok a => exact ⟨a, rfl⟩

theorem allPairs_length {α : Type} (l : List α) :
    (allPairs l).length = Nat.choose l.length 2 := by
  induction l with
  | nil => rfl
  | cons x xs ih =>
    simp only [allPairs, List.length_append, List.length_map, List.length_cons, ih]
    rw [show (2 : ℕ) = 1 + 1 from rfl, Nat.choose_succ_succ, Nat.choose_one_right]

theorem comparePairs_error_stats :
    ∀ (l : List (JSValue × JSValue)) (e : CompareFnError),
      comparePairs l = .error e → ∃ msg, e = .statsError msg := by
  intro l
  induction l with
  | nil => intro e h; exact absurd h (by simp [comparePairs])
  | cons pr rest ih =>
    intro e h
    rw [comparePairs] at h
    rcases hc : compare (objToBReport pr.1) (objToBReport pr.2) with er | r
    · rw [hc] at h
      simp only [] at h
      exact ⟨er, by injection h with h2; exact h2.symm⟩
    · rw [hc] at h
      simp only [] at h
      rcases hrest : comparePairs rest with e2 | tail
      · rw [hrest] at h
        simp only [] at h
        injection h with h2
        exact ih e (h2 ▸ hrest)
      · rw [hrest] at h
        simp only [] at h
        exact Except.noConfusion h

theorem comparePairs_ok_of_forall :
    ∀ l : List (JSValue × JSValue),
      (∀ pr ∈ l, ∃ c, compare (objToBReport pr.1) (objToBReport pr.2) = .ok c) →
      ∃ res, comparePairs l = .ok res ∧ res.length = l.length := by
  intro l
  induction l with
  | nil => intro _; exact ⟨[], rfl, rfl⟩
  | cons pr rest ih =>
    intro h
    rcases h pr (List.mem_cons_self pr rest) with ⟨c, hc⟩
    rcases ih (fun q hq => h q (List.mem_cons_of_mem pr hq)) with ⟨tail, htail, hlen⟩
    refine ⟨c :: tail, ?_, by simp [hlen]⟩
    rw [comparePairs]
    simp only [hc, htail]

theorem collectFunctionReports_ok (functionName : String) :
    ∀ l : List JSValue,
      (∀ sr ∈ l, validateSuiteReport sr = [] ∧
        ∃ r, findBenchmarkReport sr functionName = some r ∧
          validateBenchmarkReport r = []) →
      ∃ reports, collectFunctionReports functionName l = .ok reports ∧
        List.Forall₂ (fun sr r => findBenchmarkReport sr functionName = some r)
          l reports := by
  intro l
  induction l with
  | nil => intro _; exact ⟨[], rfl, List.Forall₂.nil⟩
  | cons sr rest ih =>
    intro h
    rcases h sr (List.mem_cons_self sr rest) with ⟨hsv, r, hfind, hbv⟩
    rcases ih (fun q hq => h q (List.mem_cons_of_mem sr hq)) with ⟨tail, htail, hall⟩
    refine ⟨r :: tail, ?_, List.Forall₂.cons hfind hall⟩
    rw [collectFunctionReports]
    simp [hsv, hfind, hbv, htail]

theorem isNonNegativeNumberField_of_nonneg {fields : List (String × JSValue)}
    {key : String} {x : ℝ} (hl : lookupField fields key = some (.num (.fin x)))
    (hx : 0 ≤ x) : isNonNegativeNumberField fields key = true := by
  rw [isNonNegativeNumberField, hl]
  simp [jsLt_fin_fin, decide_eq_false_iff_not, not_lt, hx]

theorem validateBenchmarkReport_nil {report : JSValue}
    {fields : List (String × JSValue)}
    (hob : objectFields report = some fields)
    (hmiss : requiredBenchmarkReportProperties.filter
      (fun prop => !(hasField fields prop)) = [])
    (hname : isStringField fields "name" = true)
    (hops : isNonNegativeNumberField fields "ops" = true)
    (hsize : isNonNegativeNumberField fields "size" = true)
    (hrme : isNonNegativeNumberField fields "rme" = true)
    (hstddev : isNonNegativeNumberField fields "stddev" = true)
    (hme : isNonNegativeNumberField fields "me" = true)
    (hmean : isNonNegativeNumberField fields "mean" = true)
    (hvariance : isNonNegativeNumberField fields "variance" = true)
    (hdate : isStringField fields "date" = true) :
    validateBenchmarkReport report = [] := by
  rw [validateBenchmarkReport, hob]
  simp [hmiss, hname, hops, hsize, hrme, hstddev, hme, hmean, hvariance, hdate,
    missingPropertiesIssues]

/-! ### Claim theorems -/

/-- C1: for every list of k ≥ 2 structurally valid suite reports, each containing a
benchmark report whose `name` equals the requested function name and which passes
the benchmark-report validation (as every report carrying exactly the current
wire-format fields with non-negative numeric values does), `compareFunction` raises
no validation exception: report collection succeeds with the k matching reports in
input order, the pairwise phase is reached, its pair list has exactly C(k,2)
entries in input order, and whenever every pairwise `compare` succeeds the function
returns exactly those C(k,2) comparison results.  (The unqualified claim, that the
C(k,2) results are always returned, fails for degenerate valid reports on which
`compare` itself throws — see the counterexample.) -/
theorem c1_validated_reports_reach_pairwise (functionName : String)
    (suiteReports : List JSValue) (hk : 2 ≤ suiteReports.length)
    (h : ∀ sr ∈ suiteReports, validateSuiteReport sr = [] ∧
      ∃ r, findBenchmarkReport sr functionName = some r ∧
        validateBenchmarkReport r = []) :
    ∃ reports : List JSValue,
      List.Forall₂ (fun sr r => findBenchmarkReport sr functionName = some r)
        suiteReports reports ∧
      collectFunctionReports functionName suiteReports = .ok reports ∧
      compareFunction functionName suiteReports = comparePairs (allPairs reports) ∧
      (allPairs reports).length = Nat.choose suiteReports.length 2 ∧
      (∀ issues,
        compareFunction functionName suiteReports ≠
          .error (.suiteValidation issues) ∧
        compareFunction functionName suiteReports ≠
          .error (.reportValidation issues)) ∧
      ((∀ pr ∈ allPairs reports, ∃ c,
          compare (objToBReport pr.1) (objToBReport pr.2) = .ok c) →
        ∃ res, compareFunction functionName suiteReports = .ok res ∧
          res.length = Nat.choose suiteReports.length 2) := by
  rcases collectFunctionReports_ok functionName suiteReports h with
    ⟨reports, hcol, hall⟩
  have hlen : reports.length = suiteReports.length := (List.Forall₂.length_eq hall).symm
  have hcf : compareFunction functionName suiteReports =
      comparePairs (allPairs reports) := by
    rw [compareFunction]
    simp only [hcol]
    rw [if_neg (by rw [hlen]; omega)]
  refine ⟨reports, hall, hcol, hcf, ?_, ?_, ?_⟩
  · rw [allPairs_length, hlen]
  · intro issues
    constructor
    · intro hcontr
      rw [hcf] at hcontr
      rcases comparePairs_error_stats _ _ hcontr with ⟨msg, hmsg⟩
      exact CompareFnError.noConfusion hmsg
    · intro hcontr
      rw [hcf] at hcontr
      rcases comparePairs_error_stats _ _ hcontr with ⟨msg, hmsg⟩
      exact CompareFnError.noConfusion hmsg
  · intro hok
    rcases comparePairs_ok_of_forall (allPairs reports) hok with ⟨res, hres, hreslen⟩
    exact ⟨res, by rw [hcf, hres], by rw [hreslen, allPairs_length, hlen]⟩

/-- Witness for C1 at the concrete input named by the claim sources: two identical
structurally valid suite reports whose benchmark report carries exactly the twelve
current wire-format fields with non-negative values.  Every hypothesis of the
theorem holds there, every pairwise `compare` succeeds, and `compareFunction`
returns exactly C(2,2) = 1 comparison result. -/
theorem c1_validated_reports_reach_pairwise_witness :
    (2 ≤ ([currentFormatSuiteObj, currentFormatSuiteObj] : List JSValue).length) ∧
    (∀ sr ∈ ([currentFormatSuiteObj, currentFormatSuiteObj] : List JSValue),
      validateSuiteReport sr = [] ∧ ∃ r, findBenchmarkReport sr "f" = some r ∧
        validateBenchmarkReport r = []) ∧
    (∃ res, compareFunction "f" [currentFormatSuiteObj, currentFormatSuiteObj] =
      .ok res ∧ res.length = 1) := by
  have hvb : validateBenchmarkReport currentFormatReportObj = [] :=
    validateBenchmarkReport_nil rfl rfl rfl
      (isNonNegativeNumberField_of_nonneg rfl (by norm_num))
      (isNonNegativeNumberField_of_nonneg rfl (by norm_num))
      (isNonNegativeNumberField_of_nonneg rfl (by norm_num))
      (isNonNegativeNumberField_of_nonneg rfl (by norm_num))
      (isNonNegativeNumberField_of_nonneg rfl (by norm_num))
      (isNonNegativeNumberField_of_nonneg rfl (by norm_num))
      (isNonNegativeNumberField_of_nonneg rfl (by norm_num))
      rfl
  have hfind : findBenchmarkReport currentFormatSuiteObj "f" =
      some currentFormatReportObj := rfl
  have hmem : ∀ sr ∈ ([currentFormatSuiteObj, currentFormatSuiteObj] : List JSValue),
      validateSuiteReport sr = [] ∧ ∃ r, findBenchmarkReport sr "f" = some r ∧
        validateBenchmarkReport r = [] := by
    intro sr hsr
    have hs : sr = currentFormatSuiteObj := by
      rcases List.mem_cons.mp hsr with h | h
      · exact h
      · simpa using h
    subst hs
    exact ⟨rfl, currentFormatReportObj, hfind, hvb⟩
  refine ⟨by norm_num, hmem, ?_⟩
  obtain ⟨reports, hall, hcol, hcf, hpairs, hnoval, hsucc⟩ :=
    c1_validated_reports_reach_pairwise "f"
      [currentFormatSuiteObj, currentFormatSuiteObj] (by norm_num) hmem
  have hcol2 : collectFunctionReports "f"
      [currentFormatSuiteObj, currentFormatSuiteObj] =
      .ok [currentFormatReportObj, currentFormatReportObj] := by
    have hsv : validateSuiteReport currentFormatSuiteObj = [] := rfl
    simp [collectFunctionReports, hsv, hfind, hvb]
  rw [hcol] at hcol2
  injection hcol2 with hreports
  subst hreports
  have hbr : objToBReport currentFormatReportObj = currentFormatBReport := rfl
  have hcmp : (compare currentFormatBReport currentFormatBReport).isOk = true := by
    norm_num [compare, currentFormatBReport, calculateTStatistic,
      calculateDegreesOfFreedom, calculatePValue, pValueFloat, jsDiv_fin_fin,
      jsSqrt_fin, jsSub_fin_fin, jsAbs_fin, jsLe_fin_fin, jsLt_fin_fin,
      Real.sqrt_ne_zero', Except.isOk, Except.toBool]
  obtain ⟨res, hres, hreslen⟩ := hsucc (by
    intro pr hpr
    have hp : pr = (currentFormatReportObj, currentFormatReportObj) := by
      simpa [allPairs] using hpr
    subst hp
    rw [hbr]
    exact exists_ok_of_isOk hcmp)
  exact ⟨res, hres, by rw [hreslen]; rfl⟩

/-- C1 counterexample: the unqualified claim — on every list of k ≥ 2 structurally
valid suite reports whose matching benchmark reports carry exactly the current
wire-format fields with non-negative numeric values, `compareFunction` returns
exactly C(k,2) pairwise results — is false.  Two identical degenerate reports
(standard deviation 0, equal means 5, all twelve wire-format fields present and
non-negative) pass every validator check, yet `compare` computes the t statistic
`0 / 0 = NaN`, `calculatePValue` throws, and `compareFunction` propagates that
plain error instead of returning the C(2,2) = 1 results.  (The error is the
p-value guard's `Error`, not a validation exception, consistent with the amended
claim.) -/
theorem c1_counterexample :
    validateSuiteReport degenerateSuiteObj = [] ∧
    findBenchmarkReport degenerateSuiteObj "f" = some degenerateReportObj ∧
    validateBenchmarkReport degenerateReportObj = [] ∧
    compareFunction "f" [degenerateSuiteObj, degenerateSuiteObj] =
      .error (.statsError "t and df must be numbers.") := by
  have hvb : validateBenchmarkReport degenerateReportObj = [] :=
    validateBenchmarkReport_nil rfl rfl rfl
      (isNonNegativeNumberField_of_nonneg rfl (by norm_num))
      (isNonNegativeNumberField_of_nonneg rfl (by norm_num))
      (isNonNegativeNumberField_of_nonneg rfl (by norm_num))
      (isNonNegativeNumberField_of_nonneg rfl (by norm_num))
      (isNonNegativeNumberField_of_nonneg rfl (by norm_num))
      (isNonNegativeNumberField_of_nonneg rfl (by norm_num))
      (isNonNegativeNumberField_of_nonneg rfl (by norm_num))
      rfl
  have hsv : validateSuiteReport degenerateSuiteObj = [] := rfl
  have hfind : findBenchmarkReport degenerateSuiteObj "f" =
      some degenerateReportObj := rfl
  refine ⟨hsv, hfind, hvb, ?_⟩
  have hcol : collectFunctionReports "f" [degenerateSuiteObj, degenerateSuiteObj] =
      .ok [degenerateReportObj, degenerateReportObj] := by
    simp [collectFunctionReports, hsv, hfind, hvb]
  have hbr : objToBReport degenerateReportObj = degenerateBReport := rfl
  have hcmp : compare degenerateBReport degenerateBReport =
      .error "t and df must be numbers." := by
    norm_num [compare, degenerateBReport, calculateTStatistic,
      calculateDegreesOfFreedom, calculatePValue, jsDiv_fin_fin, jsSqrt_fin,
      jsSub_fin_fin, Real.sqrt_zero]
  rw [compareFunction]
  simp only [hcol]
  norm_num [allPairs, comparePairs, hbr, hcmp]

/-- C2 counterexample: the claim — a run whose final sample set is non-empty with
arithmetic mean exactly 0 reports `ops = 0` — is false.  A fresh instance run in an
environment where every batch measures 0 ms ends with samples `[0, 0]`, and
`getOperationsPerSecond` computes the unguarded float division `1000 / 0 = ∞`, so
`ops` is `Infinity`, not `0`. -/
theorem c2_counterexample :
    ¬ (∀ (o : BenchmarkOptions) (env : BenchEnv) (s s1 : BenchState),
        run o env s = some s1 → s1.results ≠ [] → arithmeticMeanVal s1.results = 0 →
        (getReport s1).1.ops = JSNum.fin 0) := by
  intro h
  have hrun : run twoIterationOptions envZeroSamples (initState twoIterationOptions) =
      some stateSamples_0_0 := by
    rw [run, initState,
      show twoIterationOptions.maxInnerIterations + 2 = 10001 + 1 from rfl,
      adaptiveInnerIterations_stop (by norm_num [envZeroSamples, twoIterationOptions])]
    norm_num [twoIterationOptions, envZeroSamples, mainLoop, removeOutliers,
      stateSamples_0_0]
  have hmean : arithmeticMeanVal stateSamples_0_0.results = 0 := by
    norm_num [stateSamples_0_0, arithmeticMeanVal]
  have hops : (getReport stateSamples_0_0).1.ops = JSNum.inf := by
    norm_num [getReport, getOperationsPerSecond, getRME, getAverageTime,
      stateSamples_0_0, arithmeticMeanVal, jsDiv]
  have := h _ _ _ _ hrun (by simp [stateSamples_0_0]) hmean
  rw [hops] at this
  exact JSNum.noConfusion this

/-- C2 amended: on a fresh instance (no cached mean), a non-empty final sample set
with arithmetic mean 0 yields `ops = Infinity` (the float division `1000 / 0`); the
`ops = 0` guard only covers the empty sample set. -/
theorem c2_zero_mean_ops_is_infinity (s : BenchState) (h1 : s.results ≠ [])
    (h2 : arithmeticMeanVal s.results = 0) (h3 : s.meanCache = none) :
    (getReport s).1.ops = JSNum.inf := by
  have hlen : ¬ s.results.length = 0 := by simpa [List.length_eq_zero] using h1
  simp [getReport, getOperationsPerSecond, getAverageTime, hlen, h2, h3, jsDiv]

/-- C2 witness: the amended theorem applied to the all-zero two-sample state. -/
theorem c2_zero_mean_ops_is_infinity_witness :
    stateSamples_0_0.results ≠ [] ∧ arithmeticMeanVal stateSamples_0_0.results = 0 ∧
    stateSamples_0_0.meanCache = none ∧
    (getReport stateSamples_0_0).1.ops = JSNum.inf :=
  ⟨by simp [stateSamples_0_0], by norm_num [stateSamples_0_0, arithmeticMeanVal],
   rfl, c2_zero_mean_ops_is_infinity stateSamples_0_0 (by simp [stateSamples_0_0])
     (by norm_num [stateSamples_0_0, arithmeticMeanVal]) rfl⟩

/-- C3: the claim says every report's `mean` equals the arithmetic mean of its
`sample` array, including a report obtained after a second sequential `run()`.  The
`#mean` cache is not invalidated by `run()`: after a first run with samples `[1, 3]`
and a report (which caches the mean 2), a second run collects `[5, 7]`, but the next
report still carries the stale `mean = 2` while its `sample` is `[5, 7]` with
arithmetic mean 6.  This theorem evaluates the code at that failing input. -/
theorem c3_stale_mean_cache_after_second_run :
    run twoIterationOptions envSamples_1_3 (initState twoIterationOptions) =
      some stateSamples_1_3 ∧
    (getReport stateSamples_1_3).1.mean = 2 ∧
    (getReport stateSamples_1_3).2 = stateSamples_1_3_cached ∧
    run twoIterationOptions envSamples_5_7 stateSamples_1_3_cached =
      some stateSamples_5_7_staleCache ∧
    (getReport stateSamples_5_7_staleCache).1.sample = [5, 7] ∧
    arithmeticMeanVal [5, 7] = 6 ∧
    (getReport stateSamples_5_7_staleCache).1.mean = 2 := by
  refine ⟨?_, ?_, ?_, ?_, ?_, ?_, ?_⟩
  · rw [run, initState,
      show twoIterationOptions.maxInnerIterations + 2 = 10001 + 1 from rfl,
      adaptiveInnerIterations_stop (by norm_num [envSamples_1_3, twoIterationOptions])]
    norm_num [twoIterationOptions, envSamples_1_3, mainLoop, removeOutliers,
      stateSamples_1_3]
  · norm_num [getReport, getOperationsPerSecond, getRME, getAverageTime,
      stateSamples_1_3, arithmeticMeanVal]
  · norm_num [getReport, getOperationsPerSecond, getRME, getAverageTime,
      stateSamples_1_3, stateSamples_1_3_cached, arithmeticMeanVal]
  · rw [run, show twoIterationOptions.maxInnerIterations + 2 = 10001 + 1 from rfl,
      adaptiveInnerIterations_stop (by norm_num [envSamples_5_7, twoIterationOptions])]
    norm_num [twoIterationOptions, envSamples_5_7, stateSamples_1_3_cached, mainLoop,
      removeOutliers, stateSamples_5_7_staleCache]
  · norm_num [getReport, getOperationsPerSecond, getRME, getAverageTime,
      stateSamples_5_7_staleCache]
  · norm_num [arithmeticMeanVal]
  · norm_num [getReport, getOperationsPerSecond, getRME, getAverageTime,
      stateSamples_5_7_staleCache]

/-- C4 counterexample: the claim — `calculatePValue` raises whenever `t` or `df` is
non-finite — is false: `t = Infinity` with `df = 1` passes both guards (only NaN and
`df ≤ 0` are checked) and the call returns normally. -/
theorem c4_counterexample :
    ¬ (∀ t df : JSNum,
        (t.isFinite = false ∨ df.isFinite = false ∨ jsLe df (.fin 0) = true) →
        ∃ e, calculatePValue t df = .error e) := by
  intro h
  rcases h .inf (.fin 1) (.inl rfl) with ⟨e, he⟩
  rw [show calculatePValue .inf (.fin 1) = .ok (.fin 0) from by
    norm_num [calculatePValue, pValueFloat, jsAbs, jsLe_fin_fin, JSNum.isNaN]] at he
  exact Except.noConfusion he

/-- C4 amended: `calculatePValue` raises exactly when `t` or `df` is NaN or
`df ≤ 0`; non-NaN infinite arguments are accepted.  For finite `t` and finite
`df > 0` it returns the two-tailed p-value `2 * (1 - tCDF(|t|, df))` without
raising. -/
theorem c4_pvalue_error_characterization (t df : JSNum) :
    ((calculatePValue t df).isOk = false ↔
      (t.isNaN = true ∨ df.isNaN = true ∨ jsLe df (.fin 0) = true)) ∧
    (∀ x d : ℝ, t = .fin x → df = .fin d → 0 < d →
      calculatePValue t df = .ok (.fin (2 * (1 - tCDF |x| d)))) := by
  constructor
  · by_cases h1 : (t.isNaN || df.isNaN : Bool)
    · simp only [calculatePValue, if_pos h1]
      simp only [Bool.or_eq_true] at h1
      simp [Except.isOk, Except.toBool]
      tauto
    · by_cases h2 : jsLe df (.fin 0)
      · simp only [calculatePValue, if_neg h1, if_pos h2]
        simp [Except.isOk, Except.toBool, h2]
      · simp only [calculatePValue, if_neg h1, if_neg h2]
        simp only [Bool.or_eq_true, not_or, Bool.not_eq_true] at h1
        simp only [Bool.not_eq_true] at h2
        simp [Except.isOk, Except.toBool, h1.1, h1.2, h2]
  · intro x d hx hd hdpos
    subst hx; subst hd
    rw [calculatePValue]
    rw [if_neg (by simp), if_neg (by simp [not_le.2 hdpos])]
    rfl

/-- C4 witness: the amended theorem applied at `t = 2`, `df = 20`. -/
theorem c4_pvalue_error_characterization_witness :
    calculatePValue (.fin 2) (.fin 20) = .ok (.fin (2 * (1 - tCDF |(2 : ℝ)| 20))) :=
  (c4_pvalue_error_characterization (.fin 2) (.fin 20)).2 2 20 rfl rfl (by norm_num)

/-- C5: the claim says the `sample` array of every report produced by `run()` is
ascending, regardless of whether the sample count reached `minSamples`.  When the
count is below `minSamples`, `removeOutliers` returns the buffer untouched — not
even sorted — so a run whose two samples arrive as 5 then 3 (with the default
`minSamples = 10`) reports `sample = [5, 3]`, which is not ascending, contradicting
the unconditional ordering promise in the `sample` field documentation.  This
theorem evaluates the code at that failing input. -/
theorem c5_sample_unsorted_below_min_samples :
    run twoIterationOptions envSamples_5_3 (initState twoIterationOptions) =
      some stateSamples_5_3 ∧
    (getReport stateSamples_5_3).1.sample = [5, 3] ∧
    ¬ List.Sorted (· ≤ ·) (getReport stateSamples_5_3).1.sample := by
  refine ⟨?_, ?_, ?_⟩
  · rw [run, initState,
      show twoIterationOptions.maxInnerIterations + 2 = 10001 + 1 from rfl,
      adaptiveInnerIterations_stop (by norm_num [envSamples_5_3, twoIterationOptions])]
    norm_num [twoIterationOptions, envSamples_5_3, mainLoop, removeOutliers,
      stateSamples_5_3]
  · norm_num [getReport, getOperationsPerSecond, getRME, getAverageTime,
      stateSamples_5_3]
  · norm_num [getReport, getOperationsPerSecond, getRME, getAverageTime,
      stateSamples_5_3, List.Sorted]

/-- C6: the claim says the inner-loop size fixed by the calibration phase never
exceeds `maxInnerIterations`.  The loop doubles whenever the count is still below
the ceiling, so it can overshoot: with the default `innerIterations = 10` and
`maxInnerIterations = 10000` and an always-fast function, the fixed size is
`10 · 2^10 = 10240 > 10000`, contradicting the field's own documentation ("the
maximum value that the adaptive innerIterations can reach").  This theorem
evaluates the code at that failing input. -/
theorem c6_adaptive_inner_iterations_overshoot :
    run zeroIterationOptions envAllZero (initState zeroIterationOptions) =
      some stateOvershoot ∧
    zeroIterationOptions.maxInnerIterations = 10000 ∧
    stateOvershoot.innerIterations = 10240 ∧ 10000 < 10240 := by
  refine ⟨?_, rfl, rfl, by norm_num⟩
  rw [run, initState]
  norm_num [zeroIterationOptions, envAllZero, adaptiveInnerIterations_step,
    adaptiveInnerIterations_stop, mainLoop, stateOvershoot, removeOutliers]

/-- C7 counterexample: the claim — for all succeeding pairs, `compare(b, a)` has
`aWins` flipped relative to `compare(a, b)` — is false when the two means are
equal: comparing a report with itself succeeds (mean 10, stddev 3, size 9) and
`aWins` is `false` in both directions, since `aWins = (a.mean < b.mean)`. -/
theorem c7_counterexample :
    ¬ (∀ (a b : BReport) (ra rb : ComparisonResult),
        compare a b = .ok ra → compare b a = .ok rb → rb.aWins = !ra.aWins) := by
  intro h
  have hok : (compare reportMean10 reportMean10).map ComparisonResult.aWins =
      .ok false := by
    norm_num [compare, reportMean10, calculateTStatistic, calculateDegreesOfFreedom,
      calculatePValue, pValueFloat, jsDiv_fin_fin, jsSqrt_fin, jsSub_fin_fin,
      jsAbs_fin, jsLe_fin_fin, jsLt_fin_fin, Except.map, Real.sqrt_ne_zero']
  rcases hc : compare reportMean10 reportMean10 with e | r
  · rw [hc] at hok
    simp [Except.map] at hok
  · have hfalse : r.aWins = false := by
      rw [hc] at hok
      simpa [Except.map] using hok
    have hflip := h reportMean10 reportMean10 r r hc hc
    rw [hfalse] at hflip
    simp at hflip

/-- C7 amended: whenever `compare` succeeds in either order, swapping the arguments
negates `ts`, `dmean` and `dops` exactly, leaves `df` and `p` unchanged (so `ts`
and `cohensd` are equal in absolute value and `p`, `df` outright equal), flips
`aWins` whenever the two means differ, and makes `aWins` false in both directions
when the means are equal.  (Stated through `Except.map`, so it also records that
both orders succeed or fail together with the same error.) -/
theorem c7_compare_swap (a b : BReport) :
    (compare b a).map ComparisonResult.ts = (compare a b).map (fun r => jsNeg r.ts) ∧
    (compare b a).map ComparisonResult.df = (compare a b).map ComparisonResult.df ∧
    (compare b a).map ComparisonResult.p = (compare a b).map ComparisonResult.p ∧
    (compare b a).map ComparisonResult.dmean =
      (compare a b).map (fun r => jsNeg r.dmean) ∧
    (compare b a).map ComparisonResult.dops =
      (compare a b).map (fun r => jsNeg r.dops) ∧
    (compare b a).map (fun r => jsAbs r.ts) = (compare a b).map (fun r => jsAbs r.ts) ∧
    (compare b a).map (fun r => jsAbs r.cohensd) =
      (compare a b).map (fun r => jsAbs r.cohensd) ∧
    (a.mean ≠ b.mean →
      (compare b a).map ComparisonResult.aWins =
        (compare a b).map (fun r => !r.aWins)) ∧
    (a.mean = b.mean →
      (compare a b).map ComparisonResult.aWins =
        (compare a b).map (fun _ => false)) := by
  have hts := calculateTStatistic_swap a.mean b.mean a.stddev b.stddev a.size b.size
  have hdf := calculateDegreesOfFreedom_comm a.stddev b.stddev a.size b.size
  rw [compare, compare, hts, hdf, calculatePValue_jsNeg]
  rcases hpv : calculatePValue
      (calculateTStatistic a.mean b.mean a.stddev b.stddev a.size b.size)
      (calculateDegreesOfFreedom a.stddev b.stddev a.size b.size) with e | p
  · simp [Except.map]
  · have hnn := calculateTStatistic_not_nan (calculatePValue_ok_not_nan hpv)
    refine ⟨?_, ?_, ?_, ?_, ?_, ?_, ?_, ?_, ?_⟩
    · simp [Except.map, hts]
    · simp [Except.map, hdf]
    · simp [Except.map]
    · simp [Except.map, jsSub_antisymm a.mean b.mean]
    · simp [Except.map, jsSub_antisymm a.ops b.ops]
    · simp [Except.map, hts]
    · simp [Except.map,
        calculateCohensD_swap a.mean b.mean a.stddev b.stddev a.size b.size]
    · intro hne
      simp only [Except.map]
      rw [jsLt_flip hnn.1 hnn.2 hne]
    · intro heq
      simp only [Except.map, heq, jsLt_irrefl]

/-- C7 witness: the amended theorem applied to a pair with equal means (a report
against itself) and to a pair with distinct means (10 against 12). -/
theorem c7_compare_swap_witness :
    ((compare reportMean10 reportMean10).map ComparisonResult.aWins =
      (compare reportMean10 reportMean10).map (fun _ => false)) ∧
    (compare reportMean12 reportMean10).map ComparisonResult.aWins =
      (compare reportMean10 reportMean12).map (fun r => !r.aWins) :=
  ⟨(c7_compare_swap reportMean10 reportMean10).2.2.2.2.2.2.2.2 rfl,
   (c7_compare_swap reportMean10 reportMean12).2.2.2.2.2.2.2.1 (by
     simp only [reportMean10, reportMean12]
     intro hcontr
     rw [JSNum.fin.injEq] at hcontr
     norm_num at hcontr)⟩

/-- C8 counterexample: the claim — `calculateDegreesOfFreedom` with both standard
deviations exactly 0 (and sizes ≥ 2) fails or returns a large sentinel, never NaN
— is false: at `s1 = s2 = 0`, `n1 = 10`, `n2 = 12` the function computes the float
division `0 / 0` and returns NaN. -/
theorem c8_counterexample :
    ¬ (∀ n1 n2 : ℝ, 2 ≤ n1 → 2 ≤ n2 →
        calculateDegreesOfFreedom (.fin 0) (.fin 0) (.fin n1) (.fin n2) ≠
          JSNum.nan) := by
  intro h
  refine h 10 12 (by norm_num) (by norm_num) ?_
  have h10 : (10 : ℝ) ≠ 0 := by norm_num
  have h12 : (12 : ℝ) ≠ 0 := by norm_num
  have h9 : (9 : ℝ) ≠ 0 := by norm_num
  have h11 : (11 : ℝ) ≠ 0 := by norm_num
  norm_num [calculateDegreesOfFreedom, jsDiv_fin_fin _ h10, jsDiv_fin_fin _ h12,
    jsDiv_fin_fin _ h9, jsDiv_fin_fin _ h11, jsSub_fin_fin]

/-- C8 amended: for sizes `n1, n2 ≥ 2`, `calculateDegreesOfFreedom` returns NaN
(the float division `0 / 0`) when both standard deviations are exactly 0, and the
Welch–Satterthwaite value
`(s1²/n1 + s2²/n2)² / ((s1²/n1)²/(n1-1) + (s2²/n2)²/(n2-1))` otherwise. -/
theorem c8_welch_df_characterization (s1 s2 n1 n2 : ℝ) (hn1 : 2 ≤ n1)
    (hn2 : 2 ≤ n2) :
    (s1 = 0 → s2 = 0 →
      calculateDegreesOfFreedom (.fin s1) (.fin s2) (.fin n1) (.fin n2) =
        JSNum.nan) ∧
    (¬ (s1 = 0 ∧ s2 = 0) →
      calculateDegreesOfFreedom (.fin s1) (.fin s2) (.fin n1) (.fin n2) =
        .fin ((s1 ^ 2 / n1 + s2 ^ 2 / n2) ^ 2 /
          ((s1 ^ 2 / n1) ^ 2 / (n1 - 1) + (s2 ^ 2 / n2) ^ 2 / (n2 - 1)))) := by
  have h10 : n1 ≠ 0 := by intro h; rw [h] at hn1; linarith
  have h20 : n2 ≠ 0 := by intro h; rw [h] at hn2; linarith
  have h11 : n1 - 1 ≠ 0 := by intro h; nlinarith
  have h21 : n2 - 1 ≠ 0 := by intro h; nlinarith
  constructor
  · intro hs1 hs2
    subst hs1; subst hs2
    norm_num [calculateDegreesOfFreedom, jsDiv_fin_fin _ h10, jsDiv_fin_fin _ h20,
      jsDiv_fin_fin _ h11, jsDiv_fin_fin _ h21, jsSub_fin_fin]
  · intro hs
    simp only [calculateDegreesOfFreedom, jsMul_fin_fin, jsDiv_fin_fin _ h10,
      jsDiv_fin_fin _ h20, jsSub_fin_fin, jsDiv_fin_fin _ h11, jsDiv_fin_fin _ h21,
      jsAdd_fin_fin]
    have hD : s1 * s1 / n1 * (s1 * s1 / n1) / (n1 - 1) +
        s2 * s2 / n2 * (s2 * s2 / n2) / (n2 - 1) ≠ 0 := by
      have ht2 : 0 ≤ s2 * s2 / n2 * (s2 * s2 / n2) / (n2 - 1) := by
        apply div_nonneg ?_ (by linarith)
        exact mul_nonneg (div_nonneg (mul_self_nonneg _) (by linarith))
          (div_nonneg (mul_self_nonneg _) (by linarith))
      have ht1 : 0 ≤ s1 * s1 / n1 * (s1 * s1 / n1) / (n1 - 1) := by
        apply div_nonneg ?_ (by linarith)
        exact mul_nonneg (div_nonneg (mul_self_nonneg _) (by linarith))
          (div_nonneg (mul_self_nonneg _) (by linarith))
      rcases not_and_or.1 hs with h | h
      · have : 0 < s1 * s1 / n1 * (s1 * s1 / n1) / (n1 - 1) := by
          apply div_pos (mul_pos (div_pos (mul_self_pos.2 h) (by linarith))
            (div_pos (mul_self_pos.2 h) (by linarith))) (by linarith)
        linarith
      · have : 0 < s2 * s2 / n2 * (s2 * s2 / n2) / (n2 - 1) := by
          apply div_pos (mul_pos (div_pos (mul_self_pos.2 h) (by linarith))
            (div_pos (mul_self_pos.2 h) (by linarith))) (by linarith)
        linarith
    rw [jsDiv_fin_fin _ hD]
    have hnum : (s1 * s1 / n1 + s2 * s2 / n2) * (s1 * s1 / n1 + s2 * s2 / n2) =
        (s1 ^ 2 / n1 + s2 ^ 2 / n2) ^ 2 := by ring
    have hden : s1 * s1 / n1 * (s1 * s1 / n1) / (n1 - 1) +
        s2 * s2 / n2 * (s2 * s2 / n2) / (n2 - 1) =
        (s1 ^ 2 / n1) ^ 2 / (n1 - 1) + (s2 ^ 2 / n2) ^ 2 / (n2 - 1) := by ring
    rw [hnum, hden]

/-- C8 witness: the amended theorem applied to the test vector
`s1 = 2, s2 = 3, n1 = 10, n2 = 12` (non-degenerate branch). -/
theorem c8_welch_df_characterization_witness :
    ¬ ((2 : ℝ) = 0 ∧ (3 : ℝ) = 0) ∧
    calculateDegreesOfFreedom (.fin 2) (.fin 3) (.fin 10) (.fin 12) =
      .fin (((2 : ℝ) ^ 2 / 10 + 3 ^ 2 / 12) ^ 2 /
        ((2 ^ 2 / 10) ^ 2 / (10 - 1) + (3 ^ 2 / 12) ^ 2 / (12 - 1))) :=
  ⟨by norm_num,
   (c8_welch_df_characterization 2 3 10 12 (by norm_num) (by norm_num)).2
     (by norm_num)⟩

/-- C9: a run that records zero samples (here: `maxIterations = 0`, with a positive
starting inner-loop count so calibration terminates) completes without raising, and
`getReport()` yields `size = 0`, an empty `sample` array, and `ops`, `rme`,
`stddev`, `mean`, `me`, `sem`, `variance` and `median` all exactly 0 — never NaN. -/
theorem c9_zero_samples_zero_report (o : BenchmarkOptions) (env : BenchEnv)
    (s : BenchState) (hmax : o.maxIterations = 0) (hinner : 1 ≤ s.innerIterations) :
    ∃ s1, run o env s = some s1 ∧
      (getReport s1).1 =
        { ops := .fin 0, rme := .fin 0, stddev := .fin 0, mean := 0, me := .fin 0,
          sample := [], sem := .fin 0, variance := .fin 0, size := 0, median := 0 } := by
  rcases Option.isSome_iff_exists.1 (run_isSome o env s hinner) with ⟨s1, hs1⟩
  refine ⟨s1, hs1, getReport_empty s1 ?_⟩
  rw [run] at hs1
  rcases h : adaptiveInnerIterations env.calibrationTime o.timeThreshold
      o.maxInnerIterations (o.maxInnerIterations + 2) s.innerIterations with - | n
  · rw [h] at hs1
    exact absurd hs1 (by simp)
  · rw [h] at hs1
    simp only [Option.some.injEq] at hs1
    rw [← hs1, hmax, mainLoop_zero, removeOutliers_nil]

/-- C9 witness: the theorem applied to default options with `maxIterations = 0` (so
`minSamples = 10`, `innerIterations = 10`) in an arbitrary concrete environment. -/
theorem c9_zero_samples_zero_report_witness :
    zeroIterationOptions.maxIterations = 0 ∧
    1 ≤ (initState zeroIterationOptions).innerIterations ∧
    ∃ s1, run zeroIterationOptions envAllZero (initState zeroIterationOptions) =
        some s1 ∧
      (getReport s1).1 =
        { ops := .fin 0, rme := .fin 0, stddev := .fin 0, mean := 0, me := .fin 0,
          sample := [], sem := .fin 0, variance := .fin 0, size := 0, median := 0 } :=
  ⟨rfl, by norm_num [initState, zeroIterationOptions],
   c9_zero_samples_zero_report zeroIterationOptions envAllZero
     (initState zeroIterationOptions) rfl
     (by norm_num [initState, zeroIterationOptions])⟩

/-- C10: whenever IQR outlier filtering actually executes (sample count at least
`minSamples ≥ 1`), every sample lying between the first and third quartiles of the
sorted buffer survives the filter, and the filtered sample set is non-empty (the
fences `q1 - 1.5·iqr` and `q3 + 1.5·iqr` bracket `[q1, q3]` since `iqr ≥ 0`, and an
order statistic adjacent to the first quartile always lies within the fences). -/
theorem c10_outlier_filter_keeps_quartile_range (minSamples : ℕ) (results : List ℝ)
    (hmin : 1 ≤ minSamples) (hlen : minSamples ≤ results.length) :
    (∀ x ∈ results, getPercentile (sortedAsc results) 25 ≤ x →
      x ≤ getPercentile (sortedAsc results) 75 →
      x ∈ removeOutliers minSamples results) ∧
    removeOutliers minSamples results ≠ [] := by
  have hnotlt : ¬ results.length < minSamples := not_lt.2 hlen
  have hs : List.Sorted (· ≤ ·) (sortedAsc results) := List.sorted_insertionSort _ _
  have hperm : (sortedAsc results).Perm results := List.perm_insertionSort _ _
  have hlength : (sortedAsc results).length = results.length := hperm.length_eq
  set l := sortedAsc results with hldef
  have hn : 1 ≤ l.length := by omega
  set q1 := getPercentile l 25 with hq1def
  set q3 := getPercentile l 75 with hq3def
  have hm0 : (0 : ℝ) ≤ (l.length : ℝ) - 1 := by
    have : (1 : ℝ) ≤ (l.length : ℝ) := by exact_mod_cast hn
    linarith
  have hp025 : 0 ≤ (25 : ℝ) / 100 * ((l.length : ℝ) - 1) := by nlinarith
  have hp125 : (25 : ℝ) / 100 * ((l.length : ℝ) - 1) ≤ (l.length : ℝ) - 1 := by
    nlinarith
  have hp075 : 0 ≤ (75 : ℝ) / 100 * ((l.length : ℝ) - 1) := by nlinarith
  have hp175 : (75 : ℝ) / 100 * ((l.length : ℝ) - 1) ≤ (l.length : ℝ) - 1 := by
    nlinarith
  obtain ⟨h25lo, h25hi⟩ := getPercentile_bounds hs hn hp025 hp125
  obtain ⟨h75lo, h75hi⟩ := getPercentile_bounds hs hn hp075 hp175
  have main : q1 ≤ q3 ∧
      ∃ c ∈ l, q1 - 1.5 * (q3 - q1) ≤ c ∧ c ≤ q3 + 1.5 * (q3 - q1) := by
    by_cases hn2 : l.length = 2
    · obtain ⟨a0, a1, hl⟩ := List.length_eq_two.1 hn2
      have h01 : a0 ≤ a1 := by
        have h := hs
        rw [hl] at h
        simpa using h
      have hq1v : q1 = a0 * (3 / 4) + a1 * (1 / 4) := by
        have hc : ⌈(1 / 4 : ℝ)⌉ = 1 := by rw [Int.ceil_eq_iff]; norm_num
        rw [hq1def, hl]
        norm_num [getPercentile, hc]
      have hq3v : q3 = a0 * (1 / 4) + a1 * (3 / 4) := by
        have hc : ⌈(3 / 4 : ℝ)⌉ = 1 := by rw [Int.ceil_eq_iff]; norm_num
        rw [hq3def, hl]
        norm_num [getPercentile, hc]
      refine ⟨by rw [hq1v, hq3v]; linarith,
        a0, by rw [hl]; exact List.mem_cons_self a0 _, ?_, ?_⟩
      · rw [hq1v, hq3v]; linarith
      · rw [hq1v, hq3v]; linarith
    · have hcf := ceil_q1_le_floor_q3 hn hn2
      have hcfNat : ⌈(25 : ℝ) / 100 * ((l.length : ℝ) - 1)⌉.toNat ≤
          ⌊(75 : ℝ) / 100 * ((l.length : ℝ) - 1)⌋.toNat := Int.toNat_le_toNat hcf
      have hfl75 : ⌊(75 : ℝ) / 100 * ((l.length : ℝ) - 1)⌋.toNat < l.length := by
        have h1 : ⌊(75 : ℝ) / 100 * ((l.length : ℝ) - 1)⌋ ≤ (l.length : ℤ) - 1 := by
          apply le_trans (Int.floor_le_ceil _)
          rw [Int.ceil_le]; push_cast; exact hp175
        have h2 := Int.toNat_le_toNat h1
        omega
      have hmono : l.getD (⌈(25 : ℝ) / 100 * ((l.length : ℝ) - 1)⌉.toNat) 0 ≤
          l.getD (⌊(75 : ℝ) / 100 * ((l.length : ℝ) - 1)⌋.toNat) 0 :=
        sorted_getD_mono hs hcfNat hfl75
      have hq13 : q1 ≤ q3 := le_trans h25hi (le_trans hmono h75lo)
      refine ⟨hq13,
        l.getD (⌈(25 : ℝ) / 100 * ((l.length : ℝ) - 1)⌉.toNat) 0, ?_, ?_, ?_⟩
      · have hlt : ⌈(25 : ℝ) / 100 * ((l.length : ℝ) - 1)⌉.toNat < l.length :=
          lt_of_le_of_lt hcfNat hfl75
        rw [List.getD_eq_getElem l 0 hlt]
        exact List.getElem_mem hlt
      · linarith
      · have := le_trans hmono h75lo
        linarith
  obtain ⟨hq13, c, hcmem, hclb, hcub⟩ := main
  constructor
  · intro x hx h1x h3x
    rw [removeOutliers, if_neg hnotlt]
    refine List.mem_filter.2 ⟨hperm.mem_iff.2 hx, ?_⟩
    simp only [Bool.and_eq_true, decide_eq_true_eq]
    exact ⟨by linarith, by linarith⟩
  · apply List.ne_nil_of_mem (a := c)
    rw [removeOutliers, if_neg hnotlt]
    refine List.mem_filter.2 ⟨hcmem, ?_⟩
    simp only [Bool.and_eq_true, decide_eq_true_eq]
    exact ⟨hclb, hcub⟩

/-- C10 witness: the theorem applied to a single-sample buffer with
`minSamples = 1` (nonemptiness part). -/
theorem c10_outlier_filter_keeps_quartile_range_witness :
    1 ≤ ([(1 : ℝ)]).length ∧ removeOutliers 1 [(1 : ℝ)] ≠ [] :=
  ⟨by norm_num,
   (c10_outlier_filter_keeps_quartile_range 1 [(1 : ℝ)] (le_refl 1) (by norm_num)).2⟩

end Benchmark
